import Mathlib

/-!
Shallow embedding of the ecLogger SSM2 core (Go) in Lean 4.

Conventions used throughout this development:
* Go `byte` values are modelled as `Nat` together with explicit `% 256`
  wherever the Go code performs a byte conversion or byte arithmetic
  can overflow.
* Go `float32` values are modelled as `ℚ`; decimal literals are read
  exactly.  No claim in this development depends on float rounding.
* Go slices are modelled as `List Nat`; an index or slice expression
  whose bounds exceed the slice length is a runtime fault (panic) and
  is modelled by `Option`/an error result.
* Fallible Go functions returning `(T, error)` are modelled as
  `Except E T` (or `Option T` when the error value is irrelevant).

The sources embedded here are the `units` package (Convert and the
UnitConversions table), the `protocols/ssm2` package (packets.go:
newPacket, CalculateChecksum, validateHeader, Packet.Data,
parseECUFromInitResponse; connection.go: sendPacket, NextPacket,
InitECU, SendReadAddressesRequest; logging.go: LoggingSession,
processPackets; parameters.go: Parameter, ParameterValue, ConvertTo,
SafeConvertTo, AvailableDerivedParameters and the parameter tables).
-/

namespace units

/-- Unit is the closed set of unit tags of the `units` Go package
(`type Unit string` and its constants). -/
inductive Unit where
  | MPH | KMH
  | Miles | Kilometers
  | RPM
  | Degress
  | F | C
  | PSI | BAR | KPA | HPA | MPA | InHG | MmHG
  | GS
  | AFR | Lambda | DegreesCrankAngle | MM3PerStroke | MGPerCylinder
  | MPGUS | MPGUK | KMPerL | LPer100K
  | Volts | Amps | Milliamps | Ohms
  | Time | MS | US
  | Percent | Steps | Gear | Count | MisfireCount | Multiplier | Index
  | Raw | DegreesPerSecond | MetersPerSecondSquared | GramsPerRev
  | Times | Grams | Coefficient | Nm
  deriving DecidableEq, Repr

/-- ConvError models `ErrorInvalidConversion` of the `units` package. -/
inductive ConvError where
  | invalidConversion
  deriving DecidableEq, Repr

/-- UnitConversions embeds the Go map
`map[Unit]map[Unit]func(v float32) float32`.  A missing outer or inner
key (Go: nil map / nil function) is `none`. -/
def UnitConversions : Unit → Option (Unit → Option (ℚ → ℚ))
  | .MPH => some fun
    | .KMH => some (fun v => v * 1.60934)
    | _ => none
  | .KMH => some fun
    | .MPH => some (fun v => v * 0.621371)
    | _ => none
  | .F => some fun
    | .C => some (fun v => (v - 32) / 9 * 5)
    | _ => none
  | .C => some fun
    | .F => some (fun v => (v / 5 * 9) + 32)
    | _ => none
  | .KPA => some fun
    | .PSI => some (fun v => v * 37 / 255)
    | .BAR => some (fun v => v / 100)
    | .HPA => some (fun v => v * 10)
    | .InHG => some (fun v => v * 0.2953)
    | .MmHG => some (fun v => v * 7.5)
    | _ => none
  | .PSI => some fun
    | .KPA => some (fun v => v * 255 / 37)
    | .BAR => some (fun v => v * 0.0689475729)
    | .HPA => some (fun v => v * 2550 / 37)
    | .InHG => some (fun v => v * 2.03602)
    | .MmHG => some (fun v => v * 51.7149)
    | _ => none
  | .BAR => some fun
    | .PSI => some (fun v => v * 14.5038)
    | .KPA => some (fun v => v * 100)
    | .HPA => some (fun v => v * 1000)
    | .InHG => some (fun v => v * 29.53)
    | .MmHG => some (fun v => v * 750.062)
    | _ => none
  | .HPA => some fun
    | .PSI => some (fun v => v * 0.0145038)
    | .BAR => some (fun v => v / 1000)
    | .KPA => some (fun v => v / 10)
    | .InHG => some (fun v => v * 0.029529983071445)
    | .MmHG => some (fun v => v * 0.75006157584566)
    | _ => none
  | .InHG => some fun
    | .PSI => some (fun v => v * 0.491154)
    | .BAR => some (fun v => v * 0.0338639)
    | .KPA => some (fun v => v * 3.3863886666667)
    | .HPA => some (fun v => v * 33.863886666667)
    | .MmHG => some (fun v => v * 25.4)
    | _ => none
  | .MmHG => some fun
    | .PSI => some (fun v => v * 0.0193368)
    | .BAR => some (fun v => v * 0.00133322)
    | .KPA => some (fun v => v * 0.13332239)
    | .HPA => some (fun v => v * 1.3332239)
    | .InHG => some (fun v => v * 0.0393701)
    | _ => none
  | _ => none

/-- Convert embeds `units.Convert`: look up the outer map, then the
inner map, and apply the conversion function; a missing edge yields
`ErrorInvalidConversion` (Go returns `(0, err)`). -/
def Convert (value : ℚ) (f t : Unit) : Except ConvError ℚ :=
  match UnitConversions f with
  | none => .error .invalidConversion
  | some cvs =>
    match cvs t with
    | none => .error .invalidConversion
    | some cv => .ok (cv value)

end units

namespace ssm2

/-- ParameterValue stores a value together with its current unit
(`type ParameterValue struct { Value float32; Unit units.Unit }`). -/
structure ParameterValue where
  Value : ℚ
  Unit : units.Unit
  deriving DecidableEq, Repr

/-- ConvertTo embeds `ParameterValue.ConvertTo`: when the target unit
equals the current unit the value is returned unchanged, otherwise
`units.Convert` is consulted. -/
def ParameterValue.ConvertTo (v : ParameterValue) (u : units.Unit) :
    Except units.ConvError ParameterValue :=
  if u = v.Unit then .ok ⟨v.Value, v.Unit⟩
  else
    match units.Convert v.Value v.Unit u with
    | .error e => .error e
    | .ok val => .ok ⟨val, u⟩

/-- SafeConvertTo embeds `ParameterValue.SafeConvertTo`: on a failed
conversion it returns the zero value tagged with the target unit. -/
def ParameterValue.SafeConvertTo (v : ParameterValue) (u : units.Unit) :
    ParameterValue :=
  match v.ConvertTo u with
  | .ok pv => pv
  | .error _ => ⟨0, u⟩

/-! Packet codec (protocols/ssm2/packets.go). -/

/-- Packet is a raw byte sequence (`type Packet []byte`). -/
abbrev Packet := List Nat

def PacketMagicByte : Nat := 0x80
def PacketHeaderSize : Nat := 5

def DeviceEngine : Nat := 0x10
def DeviceTransmission : Nat := 0x18
def DeviceDiagnosticTool : Nat := 0xf0
def DeviceFastModeDiagnosticTool : Nat := 0xf2

def CommandReadBlockRequest : Nat := 0xa0
def CommandReadBlockResponse : Nat := 0xe0
def CommandReadAddressesRequest : Nat := 0xa8
def CommandReadAddressesResponse : Nat := 0xe8
def CommandWriteBlockRequest : Nat := 0xb0
def CommandWriteBlockResponse : Nat := 0xf0
def CommandWriteAddressRequest : Nat := 0xb8
def CommandWriteAddressResponse : Nat := 0xf8
def CommandInitRequest : Nat := 0xbf
def CommandInitResponse : Nat := 0xff

/-- devices embeds the `devices` byte slice of packets.go. -/
def devices : List Nat :=
  [DeviceEngine, DeviceTransmission, DeviceDiagnosticTool,
   DeviceFastModeDiagnosticTool]

/-- commands embeds the `commands` byte slice of packets.go. -/
def commands : List Nat :=
  [CommandReadBlockRequest, CommandReadBlockResponse,
   CommandReadAddressesRequest, CommandReadAddressesResponse,
   CommandWriteBlockRequest, CommandWriteBlockResponse,
   CommandWriteAddressRequest, CommandWriteAddressResponse,
   CommandInitRequest, CommandInitResponse]

/-- CalculateChecksum embeds `CalculateChecksum`: the low 8 bits of the
sum of every byte of the packet except the final (checksum) byte. -/
def CalculateChecksum (p : Packet) : Nat :=
  p.dropLast.sum % 256

/-- newPacket embeds `newPacket`: a 5-byte header, the data bytes, and
a trailing checksum computed over header and data.  The payload-size
byte is `byte(len(data)) + 1` with Go byte wrap-around. -/
def newPacket (src dest cmd : Nat) (data : List Nat) : Packet :=
  let body := [PacketMagicByte, dest % 256, src % 256,
               (data.length % 256 + 1) % 256, cmd % 256] ++ data
  body ++ [body.sum % 256]

/-- Data embeds `Packet.Data`: the slice `p[5 : len(p)-1]`.  Every
packet this is applied to in the source has length at least 6. -/
def Packet.Data (p : Packet) : List Nat :=
  (p.drop PacketHeaderSize).dropLast

/-- validateHeader embeds `validateHeader` as a boolean: header length
is 5, magic byte matches, destination and source are known devices,
the command is known, and the payload size is at least 1. -/
def validateHeader (b : List Nat) : Bool :=
  b.length = PacketHeaderSize &&
  b.getD 0 0 = PacketMagicByte &&
  devices.contains (b.getD 1 0) &&
  devices.contains (b.getD 2 0) &&
  commands.contains (b.getD 4 0) &&
  1 ≤ b.getD 3 0

/-- sendReadAddressesData embeds the payload construction of
`SendReadAddressesRequest`: a continuous-mode flag byte followed by
the three bytes of each address in order. -/
def sendReadAddressesData (addresses : List (Nat × Nat × Nat))
    (continuous : Bool) : List Nat :=
  (if continuous then 0x01 else 0x00) ::
    addresses.flatMap (fun a => [a.1, a.2.1, a.2.2])

/-- sendReadAddressesWrites is the packet `SendReadAddressesRequest`
builds and hands to `sendPacket`, which writes exactly these bytes to
the serial port before reading. -/
def sendReadAddressesWrites (addresses : List (Nat × Nat × Nat))
    (continuous : Bool) : Packet :=
  newPacket DeviceDiagnosticTool DeviceEngine CommandReadAddressesRequest
    (sendReadAddressesData addresses continuous)

/-- initECUWrites is the packet `InitECU` builds
(`newPacket(DeviceDiagnosticTool, DeviceEngine, CommandInitRequest, nil)`)
and hands to `sendPacket`, which writes exactly these bytes to the
serial port before reading. -/
def initECUWrites : Packet :=
  newPacket DeviceDiagnosticTool DeviceEngine CommandInitRequest []

/-! Parameter model (parameters.go).  The display-only `Name` and
`Description` strings of the Go records are omitted; all semantically
relevant fields are kept. -/

/-- ParameterAddress embeds `ParameterAddress`: the 3-byte ECU address
and the number of consecutive addresses holding the value. -/
structure ParameterAddress where
  Address : Nat × Nat × Nat
  Length : Nat
  deriving DecidableEq, Repr

/-- Parameter embeds `Parameter`: id, capability bit position, optional
address, and the pure decoder.  The decoder returns `none` when the Go
decoder would panic (an index beyond the input length). -/
structure Parameter where
  Id : String
  CapabilityByteIndex : Nat
  CapabilityBitIndex : Nat
  Address : Option ParameterAddress
  Value : List Nat → Option ParameterValue

/-- DerivedParameter embeds `DerivedParameter`: id, dependency ids, and
the expression over the already-decoded value map.  `none` models a
non-nil error return. -/
structure DerivedParameter where
  Id : String
  DependsOnParameters : List String
  Value : List (String × ParameterValue) → Option ParameterValue

/-- uint32BE embeds `binary.BigEndian.Uint32`: it indexes bytes 0..3 of
its argument, so an input shorter than four bytes panics (`none`). -/
def uint32BE (b : List Nat) : Option Nat :=
  match b with
  | b0 :: b1 :: b2 :: b3 :: _ =>
    some ((b0 <<< 24) ||| (b1 <<< 16) ||| (b2 <<< 8) ||| b3)
  | _ => none
/-- P1 embeds `Parameters["P1"]` of parameters.go. -/
def P1 : Parameter := {
  Id := "P1",
  CapabilityByteIndex := 8,
  CapabilityBitIndex := 7,
  Address := some { Address := (0x0, 0x0, 0x7), Length := 1 },
  Value := fun v => match v with
    | b0 :: _ => some ⟨(b0 : ℚ) * 100 / 255, units.Unit.Percent⟩
    | [] => none }

/-- P2 embeds `Parameters["P2"]` of parameters.go. -/
def P2 : Parameter := {
  Id := "P2",
  CapabilityByteIndex := 8,
  CapabilityBitIndex := 6,
  Address := some { Address := (0x0, 0x0, 0x8), Length := 1 },
  Value := fun v => match v with
    | b0 :: _ => some ⟨(b0 : ℚ) - 40, units.Unit.C⟩
    | [] => none }

/-- P3 embeds `Parameters["P3"]` of parameters.go. -/
def P3 : Parameter := {
  Id := "P3",
  CapabilityByteIndex := 8,
  CapabilityBitIndex := 5,
  Address := some { Address := (0x0, 0x0, 0x9), Length := 1 },
  Value := fun v => match v with
    | b0 :: _ => some ⟨((b0 : ℚ) - 128) * 100 / 128, units.Unit.Percent⟩
    | [] => none }

/-- P4 embeds `Parameters["P4"]` of parameters.go. -/
def P4 : Parameter := {
  Id := "P4",
  CapabilityByteIndex := 8,
  CapabilityBitIndex := 4,
  Address := some { Address := (0x0, 0x0, 0xa), Length := 1 },
  Value := fun v => match v with
    | b0 :: _ => some ⟨((b0 : ℚ) - 128) * 100 / 128, units.Unit.Percent⟩
    | [] => none }

/-- P5 embeds `Parameters["P5"]` of parameters.go. -/
def P5 : Parameter := {
  Id := "P5",
  CapabilityByteIndex := 8,
  CapabilityBitIndex := 3,
  Address := some { Address := (0x0, 0x0, 0xb), Length := 1 },
  Value := fun v => match v with
    | b0 :: _ => some ⟨((b0 : ℚ) - 128) * 100 / 128, units.Unit.Percent⟩
    | [] => none }

/-- P6 embeds `Parameters["P6"]` of parameters.go. -/
def P6 : Parameter := {
  Id := "P6",
  CapabilityByteIndex := 8,
  CapabilityBitIndex := 2,
  Address := some { Address := (0x0, 0x0, 0xc), Length := 1 },
  Value := fun v => match v with
    | b0 :: _ => some ⟨((b0 : ℚ) - 128) * 100 / 128, units.Unit.Percent⟩
    | [] => none }

/-- P7 embeds `Parameters["P7"]` of parameters.go. -/
def P7 : Parameter := {
  Id := "P7",
  CapabilityByteIndex := 8,
  CapabilityBitIndex := 1,
  Address := some { Address := (0x0, 0x0, 0xd), Length := 1 },
  Value := fun v => match v with
    | b0 :: _ => some ⟨(b0 : ℚ), units.Unit.KPA⟩
    | [] => none }

/-- P8 embeds `Parameters["P8"]` of parameters.go. -/
def P8 : Parameter := {
  Id := "P8",
  CapabilityByteIndex := 8,
  CapabilityBitIndex := 0,
  Address := some { Address := (0x0, 0x0, 0xe), Length := 2 },
  Value := fun v => (uint32BE v).map (fun w => (⟨(w : ℚ) / 4, units.Unit.RPM⟩ : ParameterValue)) }

/-- P9 embeds `Parameters["P9"]` of parameters.go. -/
def P9 : Parameter := {
  Id := "P9",
  CapabilityByteIndex := 9,
  CapabilityBitIndex := 7,
  Address := some { Address := (0x0, 0x0, 0x10), Length := 1 },
  Value := fun v => match v with
    | b0 :: _ => some ⟨(b0 : ℚ), units.Unit.KMH⟩
    | [] => none }

/-- P10 embeds `Parameters["P10"]` of parameters.go. -/
def P10 : Parameter := {
  Id := "P10",
  CapabilityByteIndex := 9,
  CapabilityBitIndex := 6,
  Address := some { Address := (0x0, 0x0, 0x11), Length := 1 },
  Value := fun v => match v with
    | b0 :: _ => some ⟨((b0 : ℚ) - 128) / 2, units.Unit.Degress⟩
    | [] => none }

/-- P11 embeds `Parameters["P11"]` of parameters.go. -/
def P11 : Parameter := {
  Id := "P11",
  CapabilityByteIndex := 9,
  CapabilityBitIndex := 5,
  Address := some { Address := (0x0, 0x0, 0x12), Length := 1 },
  Value := fun v => match v with
    | b0 :: _ => some ⟨(b0 : ℚ) - 40, units.Unit.C⟩
    | [] => none }

/-- P12 embeds `Parameters["P12"]` of parameters.go. -/
def P12 : Parameter := {
  Id := "P12",
  CapabilityByteIndex := 9,
  CapabilityBitIndex := 4,
  Address := some { Address := (0x0, 0x0, 0x13), Length := 2 },
  Value := fun v => (uint32BE v).map (fun w => (⟨(w : ℚ) / 100, units.Unit.GS⟩ : ParameterValue)) }

/-- P13 embeds `Parameters["P13"]` of parameters.go. -/
def P13 : Parameter := {
  Id := "P13",
  CapabilityByteIndex := 9,
  CapabilityBitIndex := 3,
  Address := some { Address := (0x0, 0x0, 0x15), Length := 1 },
  Value := fun v => match v with
    | b0 :: _ => some ⟨(b0 : ℚ) * 100 / 255, units.Unit.Percent⟩
    | [] => none }

/-- P14 embeds `Parameters["P14"]` of parameters.go. -/
def P14 : Parameter := {
  Id := "P14",
  CapabilityByteIndex := 9,
  CapabilityBitIndex := 2,
  Address := some { Address := (0x0, 0x0, 0x16), Length := 2 },
  Value := fun v => (uint32BE v).map (fun w => (⟨(w : ℚ) / 200, units.Unit.Volts⟩ : ParameterValue)) }

/-- P15 embeds `Parameters["P15"]` of parameters.go. -/
def P15 : Parameter := {
  Id := "P15",
  CapabilityByteIndex := 9,
  CapabilityBitIndex := 1,
  Address := some { Address := (0x0, 0x0, 0x18), Length := 2 },
  Value := fun v => (uint32BE v).map (fun w => (⟨(w : ℚ) / 200, units.Unit.Volts⟩ : ParameterValue)) }

/-- P16 embeds `Parameters["P16"]` of parameters.go. -/
def P16 : Parameter := {
  Id := "P16",
  CapabilityByteIndex := 9,
  CapabilityBitIndex := 0,
  Address := some { Address := (0x0, 0x0, 0x1a), Length := 2 },
  Value := fun v => (uint32BE v).map (fun w => (⟨(w : ℚ) / 200, units.Unit.Volts⟩ : ParameterValue)) }

/-- P17 embeds `Parameters["P17"]` of parameters.go. -/
def P17 : Parameter := {
  Id := "P17",
  CapabilityByteIndex := 10,
  CapabilityBitIndex := 7,
  Address := some { Address := (0x0, 0x0, 0x1c), Length := 1 },
  Value := fun v => match v with
    | b0 :: _ => some ⟨(b0 : ℚ) * 8 / 100, units.Unit.Volts⟩
    | [] => none }

/-- P18 embeds `Parameters["P18"]` of parameters.go. -/
def P18 : Parameter := {
  Id := "P18",
  CapabilityByteIndex := 10,
  CapabilityBitIndex := 6,
  Address := some { Address := (0x0, 0x0, 0x1d), Length := 1 },
  Value := fun v => match v with
    | b0 :: _ => some ⟨(b0 : ℚ) / 50, units.Unit.Volts⟩
    | [] => none }

/-- P19 embeds `Parameters["P19"]` of parameters.go. -/
def P19 : Parameter := {
  Id := "P19",
  CapabilityByteIndex := 10,
  CapabilityBitIndex := 5,
  Address := some { Address := (0x0, 0x0, 0x1e), Length := 1 },
  Value := fun v => match v with
    | b0 :: _ => some ⟨(b0 : ℚ) / 50, units.Unit.Volts⟩
    | [] => none }

/-- P20 embeds `Parameters["P20"]` of parameters.go. -/
def P20 : Parameter := {
  Id := "P20",
  CapabilityByteIndex := 10,
  CapabilityBitIndex := 4,
  Address := some { Address := (0x0, 0x0, 0x1f), Length := 1 },
  Value := fun v => match v with
    | b0 :: _ => some ⟨(b0 : ℚ) / 50, units.Unit.Volts⟩
    | [] => none }

/-- P21 embeds `Parameters["P21"]` of parameters.go. -/
def P21 : Parameter := {
  Id := "P21",
  CapabilityByteIndex := 10,
  CapabilityBitIndex := 3,
  Address := some { Address := (0x0, 0x0, 0x20), Length := 1 },
  Value := fun v => match v with
    | b0 :: _ => some ⟨(b0 : ℚ) * 256, units.Unit.US⟩
    | [] => none }

/-- P22 embeds `Parameters["P22"]` of parameters.go. -/
def P22 : Parameter := {
  Id := "P22",
  CapabilityByteIndex := 10,
  CapabilityBitIndex := 2,
  Address := some { Address := (0x0, 0x0, 0x21), Length := 1 },
  Value := fun v => match v with
    | b0 :: _ => some ⟨(b0 : ℚ) * 256, units.Unit.US⟩
    | [] => none }

/-- P23 embeds `Parameters["P23"]` of parameters.go. -/
def P23 : Parameter := {
  Id := "P23",
  CapabilityByteIndex := 10,
  CapabilityBitIndex := 1,
  Address := some { Address := (0x0, 0x0, 0x22), Length := 1 },
  Value := fun v => match v with
    | b0 :: _ => some ⟨((b0 : ℚ) - 128) / 2, units.Unit.Degress⟩
    | [] => none }

/-- P24 embeds `Parameters["P24"]` of parameters.go. -/
def P24 : Parameter := {
  Id := "P24",
  CapabilityByteIndex := 10,
  CapabilityBitIndex := 0,
  Address := some { Address := (0x0, 0x0, 0x23), Length := 1 },
  Value := fun v => match v with
    | b0 :: _ => some ⟨(b0 : ℚ), units.Unit.KPA⟩
    | [] => none }

/-- P25 embeds `Parameters["P25"]` of parameters.go. -/
def P25 : Parameter := {
  Id := "P25",
  CapabilityByteIndex := 11,
  CapabilityBitIndex := 7,
  Address := some { Address := (0x0, 0x0, 0x24), Length := 1 },
  Value := fun v => match v with
    | b0 :: _ => some ⟨(b0 : ℚ) - 128, units.Unit.KPA⟩
    | [] => none }

/-- P26 embeds `Parameters["P26"]` of parameters.go. -/
def P26 : Parameter := {
  Id := "P26",
  CapabilityByteIndex := 11,
  CapabilityBitIndex := 6,
  Address := some { Address := (0x0, 0x0, 0x25), Length := 1 },
  Value := fun v => match v with
    | b0 :: _ => some ⟨(b0 : ℚ) - 128, units.Unit.KPA⟩
    | [] => none }

/-- P27 embeds `Parameters["P27"]` of parameters.go. -/
def P27 : Parameter := {
  Id := "P27",
  CapabilityByteIndex := 11,
  CapabilityBitIndex := 5,
  Address := some { Address := (0x0, 0x0, 0x26), Length := 1 },
  Value := fun v => match v with
    | b0 :: _ => some ⟨((b0 : ℚ) - 128) / 4, units.Unit.HPA⟩
    | [] => none }

/-- P28 embeds `Parameters["P28"]` of parameters.go. -/
def P28 : Parameter := {
  Id := "P28",
  CapabilityByteIndex := 11,
  CapabilityBitIndex := 4,
  Address := some { Address := (0x0, 0x0, 0x27), Length := 1 },
  Value := fun v => match v with
    | b0 :: _ => some ⟨(b0 : ℚ) / 50, units.Unit.Volts⟩
    | [] => none }

/-- P29 embeds `Parameters["P29"]` of parameters.go. -/
def P29 : Parameter := {
  Id := "P29",
  CapabilityByteIndex := 11,
  CapabilityBitIndex := 3,
  Address := some { Address := (0x0, 0x0, 0x28), Length := 1 },
  Value := fun v => match v with
    | b0 :: _ => some ⟨((b0 : ℚ) - 128) / 2, units.Unit.Degress⟩
    | [] => none }

/-- P30 embeds `Parameters["P30"]` of parameters.go. -/
def P30 : Parameter := {
  Id := "P30",
  CapabilityByteIndex := 11,
  CapabilityBitIndex := 2,
  Address := some { Address := (0x0, 0x0, 0x29), Length := 1 },
  Value := fun v => match v with
    | b0 :: _ => some ⟨(b0 : ℚ) * 100 / 255, units.Unit.Percent⟩
    | [] => none }

/-- P31 embeds `Parameters["P31"]` of parameters.go. -/
def P31 : Parameter := {
  Id := "P31",
  CapabilityByteIndex := 11,
  CapabilityBitIndex := 1,
  Address := some { Address := (0x0, 0x0, 0x2a), Length := 1 },
  Value := fun v => match v with
    | b0 :: _ => some ⟨(b0 : ℚ) - 40, units.Unit.C⟩
    | [] => none }

/-- P32 embeds `Parameters["P32"]` of parameters.go. -/
def P32 : Parameter := {
  Id := "P32",
  CapabilityByteIndex := 11,
  CapabilityBitIndex := 0,
  Address := some { Address := (0x0, 0x0, 0x2b), Length := 1 },
  Value := fun v => match v with
    | b0 :: _ => some ⟨(b0 : ℚ) * 1004 / 25600, units.Unit.Amps⟩
    | [] => none }

/-- P33 embeds `Parameters["P33"]` of parameters.go. -/
def P33 : Parameter := {
  Id := "P33",
  CapabilityByteIndex := 12,
  CapabilityBitIndex := 7,
  Address := some { Address := (0x0, 0x0, 0x2c), Length := 1 },
  Value := fun v => match v with
    | b0 :: _ => some ⟨(b0 : ℚ) * 1004 / 25600, units.Unit.Amps⟩
    | [] => none }

/-- P34 embeds `Parameters["P34"]` of parameters.go. -/
def P34 : Parameter := {
  Id := "P34",
  CapabilityByteIndex := 12,
  CapabilityBitIndex := 6,
  Address := some { Address := (0x0, 0x0, 0x2d), Length := 1 },
  Value := fun v => match v with
    | b0 :: _ => some ⟨(b0 : ℚ) * 1004 / 25600, units.Unit.Amps⟩
    | [] => none }

/-- P35 embeds `Parameters["P35"]` of parameters.go. -/
def P35 : Parameter := {
  Id := "P35",
  CapabilityByteIndex := 12,
  CapabilityBitIndex := 5,
  Address := some { Address := (0x0, 0x0, 0x2e), Length := 1 },
  Value := fun v => match v with
    | b0 :: _ => some ⟨(b0 : ℚ) / 50, units.Unit.Volts⟩
    | [] => none }

/-- P36 embeds `Parameters["P36"]` of parameters.go. -/
def P36 : Parameter := {
  Id := "P36",
  CapabilityByteIndex := 12,
  CapabilityBitIndex := 3,
  Address := some { Address := (0x0, 0x0, 0x30), Length := 1 },
  Value := fun v => match v with
    | b0 :: _ => some ⟨(b0 : ℚ) * 100 / 255, units.Unit.Percent⟩
    | [] => none }

/-- P37 embeds `Parameters["P37"]` of parameters.go. -/
def P37 : Parameter := {
  Id := "P37",
  CapabilityByteIndex := 12,
  CapabilityBitIndex := 2,
  Address := some { Address := (0x0, 0x0, 0x31), Length := 1 },
  Value := fun v => match v with
    | b0 :: _ => some ⟨(b0 : ℚ) * 100 / 255, units.Unit.Percent⟩
    | [] => none }

/-- P38 embeds `Parameters["P38"]` of parameters.go. -/
def P38 : Parameter := {
  Id := "P38",
  CapabilityByteIndex := 12,
  CapabilityBitIndex := 1,
  Address := some { Address := (0x0, 0x0, 0x32), Length := 1 },
  Value := fun v => match v with
    | b0 :: _ => some ⟨(b0 : ℚ) * 100 / 255, units.Unit.Percent⟩
    | [] => none }

/-- P39 embeds `Parameters["P39"]` of parameters.go. -/
def P39 : Parameter := {
  Id := "P39",
  CapabilityByteIndex := 12,
  CapabilityBitIndex := 0,
  Address := some { Address := (0x0, 0x0, 0x33), Length := 1 },
  Value := fun v => match v with
    | b0 :: _ => some ⟨(b0 : ℚ) / 50, units.Unit.Volts⟩
    | [] => none }

/-- P40 embeds `Parameters["P40"]` of parameters.go. -/
def P40 : Parameter := {
  Id := "P40",
  CapabilityByteIndex := 13,
  CapabilityBitIndex := 7,
  Address := some { Address := (0x0, 0x0, 0x34), Length := 1 },
  Value := fun v => match v with
    | b0 :: _ => some ⟨(b0 : ℚ) / 50, units.Unit.Volts⟩
    | [] => none }

/-- P41 embeds `Parameters["P41"]` of parameters.go. -/
def P41 : Parameter := {
  Id := "P41",
  CapabilityByteIndex := 13,
  CapabilityBitIndex := 6,
  Address := some { Address := (0x0, 0x0, 0x35), Length := 1 },
  Value := fun v => match v with
    | b0 :: _ => some ⟨(b0 : ℚ) / 2, units.Unit.Percent⟩
    | [] => none }

/-- P42 embeds `Parameters["P42"]` of parameters.go. -/
def P42 : Parameter := {
  Id := "P42",
  CapabilityByteIndex := 13,
  CapabilityBitIndex := 5,
  Address := some { Address := (0x0, 0x0, 0x36), Length := 1 },
  Value := fun v => match v with
    | b0 :: _ => some ⟨(b0 : ℚ) * 100 / 255, units.Unit.Percent⟩
    | [] => none }

/-- P43 embeds `Parameters["P43"]` of parameters.go. -/
def P43 : Parameter := {
  Id := "P43",
  CapabilityByteIndex := 13,
  CapabilityBitIndex := 4,
  Address := some { Address := (0x0, 0x0, 0x37), Length := 1 },
  Value := fun v => match v with
    | b0 :: _ => some ⟨(b0 : ℚ) * 100 / 255, units.Unit.Percent⟩
    | [] => none }

/-- P44 embeds `Parameters["P44"]` of parameters.go. -/
def P44 : Parameter := {
  Id := "P44",
  CapabilityByteIndex := 13,
  CapabilityBitIndex := 3,
  Address := some { Address := (0x0, 0x0, 0x38), Length := 1 },
  Value := fun v => match v with
    | b0 :: _ => some ⟨(b0 : ℚ), units.Unit.Steps⟩
    | [] => none }

/-- P45 embeds `Parameters["P45"]` of parameters.go. -/
def P45 : Parameter := {
  Id := "P45",
  CapabilityByteIndex := 13,
  CapabilityBitIndex := 2,
  Address := some { Address := (0x0, 0x0, 0x39), Length := 1 },
  Value := fun v => match v with
    | b0 :: _ => some ⟨(b0 : ℚ), units.Unit.Steps⟩
    | [] => none }

/-- P46 embeds `Parameters["P46"]` of parameters.go. -/
def P46 : Parameter := {
  Id := "P46",
  CapabilityByteIndex := 13,
  CapabilityBitIndex := 1,
  Address := some { Address := (0x0, 0x0, 0x3a), Length := 1 },
  Value := fun v => match v with
    | b0 :: _ => some ⟨(b0 : ℚ), units.Unit.Percent⟩
    | [] => none }

/-- P47 embeds `Parameters["P47"]` of parameters.go. -/
def P47 : Parameter := {
  Id := "P47",
  CapabilityByteIndex := 13,
  CapabilityBitIndex := 0,
  Address := some { Address := (0x0, 0x0, 0x3b), Length := 1 },
  Value := fun v => match v with
    | b0 :: _ => some ⟨(b0 : ℚ) * 100 / 255, units.Unit.Percent⟩
    | [] => none }

/-- P48 embeds `Parameters["P48"]` of parameters.go. -/
def P48 : Parameter := {
  Id := "P48",
  CapabilityByteIndex := 14,
  CapabilityBitIndex := 7,
  Address := some { Address := (0x0, 0x0, 0x3c), Length := 1 },
  Value := fun v => match v with
    | b0 :: _ => some ⟨(b0 : ℚ) - 50, units.Unit.Degress⟩
    | [] => none }

/-- P49 embeds `Parameters["P49"]` of parameters.go. -/
def P49 : Parameter := {
  Id := "P49",
  CapabilityByteIndex := 14,
  CapabilityBitIndex := 6,
  Address := some { Address := (0x0, 0x0, 0x3d), Length := 1 },
  Value := fun v => match v with
    | b0 :: _ => some ⟨(b0 : ℚ) - 50, units.Unit.Degress⟩
    | [] => none }

/-- P50 embeds `Parameters["P50"]` of parameters.go. -/
def P50 : Parameter := {
  Id := "P50",
  CapabilityByteIndex := 14,
  CapabilityBitIndex := 5,
  Address := some { Address := (0x0, 0x0, 0x3e), Length := 1 },
  Value := fun v => match v with
    | b0 :: _ => some ⟨(b0 : ℚ) * 100 / 255, units.Unit.Percent⟩
    | [] => none }

/-- P51 embeds `Parameters["P51"]` of parameters.go. -/
def P51 : Parameter := {
  Id := "P51",
  CapabilityByteIndex := 14,
  CapabilityBitIndex := 4,
  Address := some { Address := (0x0, 0x0, 0x3f), Length := 1 },
  Value := fun v => match v with
    | b0 :: _ => some ⟨(b0 : ℚ) * 100 / 255, units.Unit.Percent⟩
    | [] => none }

/-- P52 embeds `Parameters["P52"]` of parameters.go. -/
def P52 : Parameter := {
  Id := "P52",
  CapabilityByteIndex := 14,
  CapabilityBitIndex := 3,
  Address := some { Address := (0x0, 0x0, 0x40), Length := 1 },
  Value := fun v => match v with
    | b0 :: _ => some ⟨(b0 : ℚ) * 32, units.Unit.Milliamps⟩
    | [] => none }

/-- P53 embeds `Parameters["P53"]` of parameters.go. -/
def P53 : Parameter := {
  Id := "P53",
  CapabilityByteIndex := 14,
  CapabilityBitIndex := 2,
  Address := some { Address := (0x0, 0x0, 0x41), Length := 1 },
  Value := fun v => match v with
    | b0 :: _ => some ⟨(b0 : ℚ) * 32, units.Unit.Milliamps⟩
    | [] => none }

/-- P54 embeds `Parameters["P54"]` of parameters.go. -/
def P54 : Parameter := {
  Id := "P54",
  CapabilityByteIndex := 14,
  CapabilityBitIndex := 1,
  Address := some { Address := (0x0, 0x0, 0x42), Length := 1 },
  Value := fun v => match v with
    | b0 :: _ => some ⟨((b0 : ℚ) - 128) / 8, units.Unit.Milliamps⟩
    | [] => none }

/-- P55 embeds `Parameters["P55"]` of parameters.go. -/
def P55 : Parameter := {
  Id := "P55",
  CapabilityByteIndex := 14,
  CapabilityBitIndex := 0,
  Address := some { Address := (0x0, 0x0, 0x43), Length := 1 },
  Value := fun v => match v with
    | b0 :: _ => some ⟨((b0 : ℚ) - 128) / 8, units.Unit.Milliamps⟩
    | [] => none }

/-- P56 embeds `Parameters["P56"]` of parameters.go. -/
def P56 : Parameter := {
  Id := "P56",
  CapabilityByteIndex := 15,
  CapabilityBitIndex := 7,
  Address := some { Address := (0x0, 0x0, 0x44), Length := 1 },
  Value := fun v => match v with
    | b0 :: _ => some ⟨(b0 : ℚ), units.Unit.Ohms⟩
    | [] => none }

/-- P57 embeds `Parameters["P57"]` of parameters.go. -/
def P57 : Parameter := {
  Id := "P57",
  CapabilityByteIndex := 15,
  CapabilityBitIndex := 6,
  Address := some { Address := (0x0, 0x0, 0x45), Length := 1 },
  Value := fun v => match v with
    | b0 :: _ => some ⟨(b0 : ℚ), units.Unit.Ohms⟩
    | [] => none }

/-- P58 embeds `Parameters["P58"]` of parameters.go. -/
def P58 : Parameter := {
  Id := "P58",
  CapabilityByteIndex := 15,
  CapabilityBitIndex := 5,
  Address := some { Address := (0x0, 0x0, 0x46), Length := 1 },
  Value := fun v => match v with
    | b0 :: _ => some ⟨(b0 : ℚ) / 128, units.Unit.Lambda⟩
    | [] => none }

/-- P59 embeds `Parameters["P59"]` of parameters.go. -/
def P59 : Parameter := {
  Id := "P59",
  CapabilityByteIndex := 15,
  CapabilityBitIndex := 4,
  Address := some { Address := (0x0, 0x0, 0x47), Length := 1 },
  Value := fun v => match v with
    | b0 :: _ => some ⟨(b0 : ℚ) / 128, units.Unit.Lambda⟩
    | [] => none }

/-- P60 embeds `Parameters["P60"]` of parameters.go. -/
def P60 : Parameter := {
  Id := "P60",
  CapabilityByteIndex := 16,
  CapabilityBitIndex := 5,
  Address := some { Address := (0x0, 0x0, 0x4a), Length := 1 },
  Value := fun v => match v with
    | b0 :: _ => some ⟨(b0 : ℚ) + 1, units.Unit.Gear⟩
    | [] => none }

/-- P61 embeds `Parameters["P61"]` of parameters.go. -/
def P61 : Parameter := {
  Id := "P61",
  CapabilityByteIndex := 17,
  CapabilityBitIndex := 4,
  Address := some { Address := (0x0, 0x0, 0x53), Length := 1 },
  Value := fun v => match v with
    | b0 :: _ => some ⟨(b0 : ℚ) / 10, units.Unit.Amps⟩
    | [] => none }

/-- P62 embeds `Parameters["P62"]` of parameters.go. -/
def P62 : Parameter := {
  Id := "P62",
  CapabilityByteIndex := 17,
  CapabilityBitIndex := 3,
  Address := some { Address := (0x0, 0x0, 0x54), Length := 1 },
  Value := fun v => match v with
    | b0 :: _ => some ⟨(b0 : ℚ) / 10, units.Unit.Amps⟩
    | [] => none }

/-- P63 embeds `Parameters["P63"]` of parameters.go. -/
def P63 : Parameter := {
  Id := "P63",
  CapabilityByteIndex := 55,
  CapabilityBitIndex := 7,
  Address := some { Address := (0x0, 0x0, 0xce), Length := 1 },
  Value := fun v => match v with
    | b0 :: _ => some ⟨(b0 : ℚ), units.Unit.MisfireCount⟩
    | [] => none }

/-- P64 embeds `Parameters["P64"]` of parameters.go. -/
def P64 : Parameter := {
  Id := "P64",
  CapabilityByteIndex := 55,
  CapabilityBitIndex := 6,
  Address := some { Address := (0x0, 0x0, 0xcf), Length := 1 },
  Value := fun v => match v with
    | b0 :: _ => some ⟨(b0 : ℚ), units.Unit.MisfireCount⟩
    | [] => none }

/-- P65 embeds `Parameters["P65"]` of parameters.go. -/
def P65 : Parameter := {
  Id := "P65",
  CapabilityByteIndex := 15,
  CapabilityBitIndex := 3,
  Address := some { Address := (0x0, 0x0, 0xd0), Length := 1 },
  Value := fun v => match v with
    | b0 :: _ => some ⟨((b0 : ℚ) - 128) * 100 / 128, units.Unit.Percent⟩
    | [] => none }

/-- P66 embeds `Parameters["P66"]` of parameters.go. -/
def P66 : Parameter := {
  Id := "P66",
  CapabilityByteIndex := 15,
  CapabilityBitIndex := 2,
  Address := some { Address := (0x0, 0x0, 0xd1), Length := 1 },
  Value := fun v => match v with
    | b0 :: _ => some ⟨((b0 : ℚ) - 128) * 100 / 128, units.Unit.Percent⟩
    | [] => none }

/-- P67 embeds `Parameters["P67"]` of parameters.go. -/
def P67 : Parameter := {
  Id := "P67",
  CapabilityByteIndex := 15,
  CapabilityBitIndex := 1,
  Address := some { Address := (0x0, 0x0, 0xd2), Length := 1 },
  Value := fun v => match v with
    | b0 :: _ => some ⟨(b0 : ℚ) / 50, units.Unit.Volts⟩
    | [] => none }

/-- P68 embeds `Parameters["P68"]` of parameters.go. -/
def P68 : Parameter := {
  Id := "P68",
  CapabilityByteIndex := 15,
  CapabilityBitIndex := 0,
  Address := some { Address := (0x0, 0x0, 0xd3), Length := 1 },
  Value := fun v => match v with
    | b0 :: _ => some ⟨(b0 : ℚ) / 50, units.Unit.Volts⟩
    | [] => none }

/-- P69 embeds `Parameters["P69"]` of parameters.go. -/
def P69 : Parameter := {
  Id := "P69",
  CapabilityByteIndex := 55,
  CapabilityBitIndex := 5,
  Address := some { Address := (0x0, 0x0, 0xd8), Length := 1 },
  Value := fun v => match v with
    | b0 :: _ => some ⟨(b0 : ℚ), units.Unit.MisfireCount⟩
    | [] => none }

/-- P70 embeds `Parameters["P70"]` of parameters.go. -/
def P70 : Parameter := {
  Id := "P70",
  CapabilityByteIndex := 55,
  CapabilityBitIndex := 4,
  Address := some { Address := (0x0, 0x0, 0xd9), Length := 1 },
  Value := fun v => match v with
    | b0 :: _ => some ⟨(b0 : ℚ), units.Unit.MisfireCount⟩
    | [] => none }

/-- P71 embeds `Parameters["P71"]` of parameters.go. -/
def P71 : Parameter := {
  Id := "P71",
  CapabilityByteIndex := 38,
  CapabilityBitIndex := 5,
  Address := some { Address := (0x0, 0x0, 0xfa), Length := 1 },
  Value := fun v => match v with
    | b0 :: _ => some ⟨((b0 : ℚ) - 128) * 100 / 128, units.Unit.Percent⟩
    | [] => none }

/-- P72 embeds `Parameters["P72"]` of parameters.go. -/
def P72 : Parameter := {
  Id := "P72",
  CapabilityByteIndex := 38,
  CapabilityBitIndex := 4,
  Address := some { Address := (0x0, 0x0, 0xfb), Length := 1 },
  Value := fun v => match v with
    | b0 :: _ => some ⟨(b0 : ℚ) * 8 / 100, units.Unit.Volts⟩
    | [] => none }

/-- P73 embeds `Parameters["P73"]` of parameters.go. -/
def P73 : Parameter := {
  Id := "P73",
  CapabilityByteIndex := 40,
  CapabilityBitIndex := 7,
  Address := some { Address := (0x0, 0x1, 0x0), Length := 1 },
  Value := fun v => match v with
    | b0 :: _ => some ⟨(b0 : ℚ) / 50, units.Unit.Volts⟩
    | [] => none }

/-- P74 embeds `Parameters["P74"]` of parameters.go. -/
def P74 : Parameter := {
  Id := "P74",
  CapabilityByteIndex := 40,
  CapabilityBitIndex := 6,
  Address := some { Address := (0x0, 0x1, 0x1), Length := 1 },
  Value := fun v => match v with
    | b0 :: _ => some ⟨(b0 : ℚ) / 50, units.Unit.Volts⟩
    | [] => none }

/-- P75 embeds `Parameters["P75"]` of parameters.go. -/
def P75 : Parameter := {
  Id := "P75",
  CapabilityByteIndex := 40,
  CapabilityBitIndex := 5,
  Address := some { Address := (0x0, 0x1, 0x2), Length := 1 },
  Value := fun v => match v with
    | b0 :: _ => some ⟨(b0 : ℚ) / 50, units.Unit.Volts⟩
    | [] => none }

/-- P76 embeds `Parameters["P76"]` of parameters.go. -/
def P76 : Parameter := {
  Id := "P76",
  CapabilityByteIndex := 40,
  CapabilityBitIndex := 4,
  Address := some { Address := (0x0, 0x1, 0x3), Length := 1 },
  Value := fun v => match v with
    | b0 :: _ => some ⟨(b0 : ℚ) / 50, units.Unit.Volts⟩
    | [] => none }

/-- P77 embeds `Parameters["P77"]` of parameters.go. -/
def P77 : Parameter := {
  Id := "P77",
  CapabilityByteIndex := 40,
  CapabilityBitIndex := 3,
  Address := some { Address := (0x0, 0x1, 0x4), Length := 1 },
  Value := fun v => match v with
    | b0 :: _ => some ⟨(b0 : ℚ), units.Unit.KPA⟩
    | [] => none }

/-- P78 embeds `Parameters["P78"]` of parameters.go. -/
def P78 : Parameter := {
  Id := "P78",
  CapabilityByteIndex := 40,
  CapabilityBitIndex := 2,
  Address := some { Address := (0x0, 0x1, 0x5), Length := 1 },
  Value := fun v => match v with
    | b0 :: _ => some ⟨(b0 : ℚ) / 25, units.Unit.MPA⟩
    | [] => none }

/-- P79 embeds `Parameters["P79"]` of parameters.go. -/
def P79 : Parameter := {
  Id := "P79",
  CapabilityByteIndex := 40,
  CapabilityBitIndex := 1,
  Address := some { Address := (0x0, 0x1, 0x6), Length := 1 },
  Value := fun v => match v with
    | b0 :: _ => some ⟨((b0 : ℚ) + 40) * 5, units.Unit.C⟩
    | [] => none }

/-- P80 embeds `Parameters["P80"]` of parameters.go. -/
def P80 : Parameter := {
  Id := "P80",
  CapabilityByteIndex := 41,
  CapabilityBitIndex := 7,
  Address := some { Address := (0x0, 0x1, 0x8), Length := 1 },
  Value := fun v => match v with
    | b0 :: _ => some ⟨(b0 : ℚ) * 256, units.Unit.US⟩
    | [] => none }

/-- P81 embeds `Parameters["P81"]` of parameters.go. -/
def P81 : Parameter := {
  Id := "P81",
  CapabilityByteIndex := 41,
  CapabilityBitIndex := 6,
  Address := some { Address := (0x0, 0x1, 0x9), Length := 1 },
  Value := fun v => match v with
    | b0 :: _ => some ⟨(b0 : ℚ), units.Unit.Steps⟩
    | [] => none }

/-- P82 embeds `Parameters["P82"]` of parameters.go. -/
def P82 : Parameter := {
  Id := "P82",
  CapabilityByteIndex := 41,
  CapabilityBitIndex := 5,
  Address := some { Address := (0x0, 0x1, 0xa), Length := 1 },
  Value := fun v => match v with
    | b0 :: _ => some ⟨(b0 : ℚ), units.Unit.KMH⟩
    | [] => none }

/-- P83 embeds `Parameters["P83"]` of parameters.go. -/
def P83 : Parameter := {
  Id := "P83",
  CapabilityByteIndex := 43,
  CapabilityBitIndex := 7,
  Address := some { Address := (0x0, 0x1, 0x18), Length := 1 },
  Value := fun v => match v with
    | b0 :: _ => some ⟨(b0 : ℚ) - 50, units.Unit.Degress⟩
    | [] => none }

/-- P84 embeds `Parameters["P84"]` of parameters.go. -/
def P84 : Parameter := {
  Id := "P84",
  CapabilityByteIndex := 43,
  CapabilityBitIndex := 6,
  Address := some { Address := (0x0, 0x1, 0x19), Length := 1 },
  Value := fun v => match v with
    | b0 :: _ => some ⟨(b0 : ℚ) - 50, units.Unit.Degress⟩
    | [] => none }

/-- P85 embeds `Parameters["P85"]` of parameters.go. -/
def P85 : Parameter := {
  Id := "P85",
  CapabilityByteIndex := 43,
  CapabilityBitIndex := 5,
  Address := some { Address := (0x0, 0x1, 0x1a), Length := 1 },
  Value := fun v => match v with
    | b0 :: _ => some ⟨(b0 : ℚ) * 100 / 255, units.Unit.Percent⟩
    | [] => none }

/-- P86 embeds `Parameters["P86"]` of parameters.go. -/
def P86 : Parameter := {
  Id := "P86",
  CapabilityByteIndex := 43,
  CapabilityBitIndex := 4,
  Address := some { Address := (0x0, 0x1, 0x1b), Length := 1 },
  Value := fun v => match v with
    | b0 :: _ => some ⟨(b0 : ℚ) * 100 / 255, units.Unit.Percent⟩
    | [] => none }

/-- P87 embeds `Parameters["P87"]` of parameters.go. -/
def P87 : Parameter := {
  Id := "P87",
  CapabilityByteIndex := 43,
  CapabilityBitIndex := 3,
  Address := some { Address := (0x0, 0x1, 0x1c), Length := 1 },
  Value := fun v => match v with
    | b0 :: _ => some ⟨(b0 : ℚ) * 32, units.Unit.Milliamps⟩
    | [] => none }

/-- P88 embeds `Parameters["P88"]` of parameters.go. -/
def P88 : Parameter := {
  Id := "P88",
  CapabilityByteIndex := 43,
  CapabilityBitIndex := 2,
  Address := some { Address := (0x0, 0x1, 0x1d), Length := 1 },
  Value := fun v => match v with
    | b0 :: _ => some ⟨(b0 : ℚ) * 32, units.Unit.Milliamps⟩
    | [] => none }

/-- P89 embeds `Parameters["P89"]` of parameters.go. -/
def P89 : Parameter := {
  Id := "P89",
  CapabilityByteIndex := 15,
  CapabilityBitIndex := 3,
  Address := some { Address := (0x0, 0x0, 0xd0), Length := 1 },
  Value := fun v => match v with
    | b0 :: _ => some ⟨((b0 : ℚ) * 0.078125) - 5, units.Unit.Percent⟩
    | [] => none }

/-- P90 embeds `Parameters["P90"]` of parameters.go. -/
def P90 : Parameter := {
  Id := "P90",
  CapabilityByteIndex := 55,
  CapabilityBitIndex := 0,
  Address := some { Address := (0x0, 0x0, 0xf9), Length := 1 },
  Value := fun v => match v with
    | b0 :: _ => some ⟨(b0 : ℚ) / 16, units.Unit.Multiplier⟩
    | [] => none }

/-- P91 embeds `Parameters["P91"]` of parameters.go. -/
def P91 : Parameter := {
  Id := "P91",
  CapabilityByteIndex := 55,
  CapabilityBitIndex := 0,
  Address := some { Address := (0x0, 0x1, 0x99), Length := 1 },
  Value := fun v => match v with
    | b0 :: _ => some ⟨((b0 : ℚ) * 0.25) - 32, units.Unit.Degress⟩
    | [] => none }

/-- P92 embeds `Parameters["P92"]` of parameters.go. -/
def P92 : Parameter := {
  Id := "P92",
  CapabilityByteIndex := 12,
  CapabilityBitIndex := 4,
  Address := some { Address := (0x0, 0x0, 0x2f), Length := 1 },
  Value := fun v => match v with
    | b0 :: _ => some ⟨(b0 : ℚ), units.Unit.Percent⟩
    | [] => none }

/-- P93 embeds `Parameters["P93"]` of parameters.go. -/
def P93 : Parameter := {
  Id := "P93",
  CapabilityByteIndex := 16,
  CapabilityBitIndex := 7,
  Address := some { Address := (0x0, 0x0, 0x48), Length := 1 },
  Value := fun v => match v with
    | b0 :: _ => some ⟨(b0 : ℚ), units.Unit.KMH⟩
    | [] => none }

/-- P94 embeds `Parameters["P94"]` of parameters.go. -/
def P94 : Parameter := {
  Id := "P94",
  CapabilityByteIndex := 16,
  CapabilityBitIndex := 6,
  Address := some { Address := (0x0, 0x0, 0x49), Length := 1 },
  Value := fun v => match v with
    | b0 :: _ => some ⟨(b0 : ℚ), units.Unit.Index⟩
    | [] => none }

/-- P95 embeds `Parameters["P95"]` of parameters.go. -/
def P95 : Parameter := {
  Id := "P95",
  CapabilityByteIndex := 16,
  CapabilityBitIndex := 4,
  Address := some { Address := (0x0, 0x0, 0x4b), Length := 1 },
  Value := fun v => match v with
    | b0 :: _ => some ⟨(b0 : ℚ) / 2, units.Unit.Percent⟩
    | [] => none }

/-- P96 embeds `Parameters["P96"]` of parameters.go. -/
def P96 : Parameter := {
  Id := "P96",
  CapabilityByteIndex := 16,
  CapabilityBitIndex := 3,
  Address := some { Address := (0x0, 0x0, 0x4c), Length := 1 },
  Value := fun v => match v with
    | b0 :: _ => some ⟨(b0 : ℚ) / 2, units.Unit.Percent⟩
    | [] => none }

/-- P97 embeds `Parameters["P97"]` of parameters.go. -/
def P97 : Parameter := {
  Id := "P97",
  CapabilityByteIndex := 16,
  CapabilityBitIndex := 2,
  Address := some { Address := (0x0, 0x0, 0x4d), Length := 1 },
  Value := fun v => match v with
    | b0 :: _ => some ⟨(b0 : ℚ) / 2, units.Unit.Percent⟩
    | [] => none }

/-- P98 embeds `Parameters["P98"]` of parameters.go. -/
def P98 : Parameter := {
  Id := "P98",
  CapabilityByteIndex := 16,
  CapabilityBitIndex := 1,
  Address := some { Address := (0x0, 0x0, 0x4e), Length := 1 },
  Value := fun v => match v with
    | b0 :: _ => some ⟨(b0 : ℚ) / 45, units.Unit.Volts⟩
    | [] => none }

/-- P99 embeds `Parameters["P99"]` of parameters.go. -/
def P99 : Parameter := {
  Id := "P99",
  CapabilityByteIndex := 16,
  CapabilityBitIndex := 0,
  Address := some { Address := (0x0, 0x0, 0x4f), Length := 1 },
  Value := fun v => match v with
    | b0 :: _ => some ⟨(b0 : ℚ) * 32, units.Unit.RPM⟩
    | [] => none }

/-- P100 embeds `Parameters["P100"]` of parameters.go. -/
def P100 : Parameter := {
  Id := "P100",
  CapabilityByteIndex := 17,
  CapabilityBitIndex := 7,
  Address := some { Address := (0x0, 0x0, 0x50), Length := 1 },
  Value := fun v => match v with
    | b0 :: _ => some ⟨(b0 : ℚ) / 2, units.Unit.Percent⟩
    | [] => none }

/-- P101 embeds `Parameters["P101"]` of parameters.go. -/
def P101 : Parameter := {
  Id := "P101",
  CapabilityByteIndex := 17,
  CapabilityBitIndex := 6,
  Address := some { Address := (0x0, 0x0, 0x51), Length := 1 },
  Value := fun v => match v with
    | b0 :: _ => some ⟨(b0 : ℚ), units.Unit.KMH⟩
    | [] => none }

/-- P102 embeds `Parameters["P102"]` of parameters.go. -/
def P102 : Parameter := {
  Id := "P102",
  CapabilityByteIndex := 17,
  CapabilityBitIndex := 5,
  Address := some { Address := (0x0, 0x0, 0x52), Length := 1 },
  Value := fun v => match v with
    | b0 :: _ => some ⟨(b0 : ℚ) / 50, units.Unit.Volts⟩
    | [] => none }

/-- P103 embeds `Parameters["P103"]` of parameters.go. -/
def P103 : Parameter := {
  Id := "P103",
  CapabilityByteIndex := 17,
  CapabilityBitIndex := 2,
  Address := some { Address := (0x0, 0x0, 0x55), Length := 1 },
  Value := fun v => match v with
    | b0 :: _ => some ⟨(b0 : ℚ) / 50, units.Unit.Volts⟩
    | [] => none }

/-- P104 embeds `Parameters["P104"]` of parameters.go. -/
def P104 : Parameter := {
  Id := "P104",
  CapabilityByteIndex := 17,
  CapabilityBitIndex := 1,
  Address := some { Address := (0x0, 0x0, 0x56), Length := 1 },
  Value := fun v => match v with
    | b0 :: _ => some ⟨(b0 : ℚ) - 50, units.Unit.C⟩
    | [] => none }

/-- P105 embeds `Parameters["P105"]` of parameters.go. -/
def P105 : Parameter := {
  Id := "P105",
  CapabilityByteIndex := 17,
  CapabilityBitIndex := 0,
  Address := some { Address := (0x0, 0x0, 0x57), Length := 1 },
  Value := fun v => match v with
    | b0 :: _ => some ⟨(b0 : ℚ) / 2, units.Unit.Percent⟩
    | [] => none }

/-- P106 embeds `Parameters["P106"]` of parameters.go. -/
def P106 : Parameter := {
  Id := "P106",
  CapabilityByteIndex := 18,
  CapabilityBitIndex := 7,
  Address := some { Address := (0x0, 0x0, 0x58), Length := 1 },
  Value := fun v => match v with
    | b0 :: _ => some ⟨(b0 : ℚ) / 2, units.Unit.Percent⟩
    | [] => none }

/-- P107 embeds `Parameters["P107"]` of parameters.go. -/
def P107 : Parameter := {
  Id := "P107",
  CapabilityByteIndex := 18,
  CapabilityBitIndex := 6,
  Address := some { Address := (0x0, 0x0, 0x59), Length := 1 },
  Value := fun v => match v with
    | b0 :: _ => some ⟨(b0 : ℚ) / 2, units.Unit.Percent⟩
    | [] => none }

/-- P108 embeds `Parameters["P108"]` of parameters.go. -/
def P108 : Parameter := {
  Id := "P108",
  CapabilityByteIndex := 18,
  CapabilityBitIndex := 5,
  Address := some { Address := (0x0, 0x0, 0x5a), Length := 1 },
  Value := fun v => match v with
    | b0 :: _ => some ⟨(b0 : ℚ) - 50, units.Unit.C⟩
    | [] => none }

/-- P109 embeds `Parameters["P109"]` of parameters.go. -/
def P109 : Parameter := {
  Id := "P109",
  CapabilityByteIndex := 18,
  CapabilityBitIndex := 4,
  Address := some { Address := (0x0, 0x0, 0x5b), Length := 1 },
  Value := fun v => match v with
    | b0 :: _ => some ⟨(b0 : ℚ) / 51, units.Unit.Volts⟩
    | [] => none }

/-- P110 embeds `Parameters["P110"]` of parameters.go. -/
def P110 : Parameter := {
  Id := "P110",
  CapabilityByteIndex := 18,
  CapabilityBitIndex := 3,
  Address := some { Address := (0x0, 0x0, 0x5c), Length := 1 },
  Value := fun v => match v with
    | b0 :: _ => some ⟨(b0 : ℚ) * 32, units.Unit.RPM⟩
    | [] => none }

/-- P111 embeds `Parameters["P111"]` of parameters.go. -/
def P111 : Parameter := {
  Id := "P111",
  CapabilityByteIndex := 18,
  CapabilityBitIndex := 2,
  Address := some { Address := (0x0, 0x0, 0x5d), Length := 1 },
  Value := fun v => match v with
    | b0 :: _ => some ⟨(b0 : ℚ) * 32, units.Unit.RPM⟩
    | [] => none }

/-- P112 embeds `Parameters["P112"]` of parameters.go. -/
def P112 : Parameter := {
  Id := "P112",
  CapabilityByteIndex := 18,
  CapabilityBitIndex := 1,
  Address := some { Address := (0x0, 0x0, 0x5e), Length := 1 },
  Value := fun v => match v with
    | b0 :: _ => some ⟨(b0 : ℚ) / 32, units.Unit.Amps⟩
    | [] => none }

/-- P113 embeds `Parameters["P113"]` of parameters.go. -/
def P113 : Parameter := {
  Id := "P113",
  CapabilityByteIndex := 18,
  CapabilityBitIndex := 0,
  Address := some { Address := (0x0, 0x0, 0x5f), Length := 1 },
  Value := fun v => match v with
    | b0 :: _ => some ⟨(b0 : ℚ) / 32, units.Unit.Amps⟩
    | [] => none }

/-- P114 embeds `Parameters["P114"]` of parameters.go. -/
def P114 : Parameter := {
  Id := "P114",
  CapabilityByteIndex := 38,
  CapabilityBitIndex := 7,
  Address := some { Address := (0x0, 0x1, 0x6a), Length := 1 },
  Value := fun v => match v with
    | b0 :: _ => some ⟨(b0 : ℚ), units.Unit.Index⟩
    | [] => none }

/-- P115 embeds `Parameters["P115"]` of parameters.go. -/
def P115 : Parameter := {
  Id := "P115",
  CapabilityByteIndex := 38,
  CapabilityBitIndex := 6,
  Address := some { Address := (0x0, 0x1, 0x6b), Length := 1 },
  Value := fun v => match v with
    | b0 :: _ => some ⟨(b0 : ℚ) / 50, units.Unit.Volts⟩
    | [] => none }

/-- P116 embeds `Parameters["P116"]` of parameters.go. -/
def P116 : Parameter := {
  Id := "P116",
  CapabilityByteIndex := 40,
  CapabilityBitIndex := 0,
  Address := some { Address := (0x0, 0x1, 0x7), Length := 1 },
  Value := fun v => match v with
    | b0 :: _ => some ⟨(b0 : ℚ)*5 + 200, units.Unit.C⟩
    | [] => none }

/-- P117 embeds `Parameters["P117"]` of parameters.go. -/
def P117 : Parameter := {
  Id := "P117",
  CapabilityByteIndex := 41,
  CapabilityBitIndex := 4,
  Address := some { Address := (0x0, 0x1, 0xb), Length := 1 },
  Value := fun v => match v with
    | b0 :: _ => some ⟨((b0 : ℚ) - 64) / 128 * 10, units.Unit.Percent⟩
    | [] => none }

/-- P118 embeds `Parameters["P118"]` of parameters.go. -/
def P118 : Parameter := {
  Id := "P118",
  CapabilityByteIndex := 41,
  CapabilityBitIndex := 3,
  Address := some { Address := (0x0, 0x1, 0xc), Length := 1 },
  Value := fun v => match v with
    | b0 :: _ => some ⟨((b0 : ℚ) - 128) / 128 * 100, units.Unit.Percent⟩
    | [] => none }

/-- P119 embeds `Parameters["P119"]` of parameters.go. -/
def P119 : Parameter := {
  Id := "P119",
  CapabilityByteIndex := 41,
  CapabilityBitIndex := 2,
  Address := some { Address := (0x0, 0x1, 0xd), Length := 1 },
  Value := fun v => match v with
    | b0 :: _ => some ⟨(b0 : ℚ) * 4 / 2, units.Unit.Ohms⟩
    | [] => none }

/-- P120 embeds `Parameters["P120"]` of parameters.go. -/
def P120 : Parameter := {
  Id := "P120",
  CapabilityByteIndex := 41,
  CapabilityBitIndex := 1,
  Address := some { Address := (0x0, 0x1, 0xe), Length := 2 },
  Value := fun v => (uint32BE v).map (fun w => (⟨(w : ℚ) * 2, units.Unit.Kilometers⟩ : ParameterValue)) }

/-- P121 embeds `Parameters["P121"]` of parameters.go. -/
def P121 : Parameter := {
  Id := "P121",
  CapabilityByteIndex := 41,
  CapabilityBitIndex := 0,
  Address := some { Address := (0x0, 0x1, 0x72), Length := 2 },
  Value := fun v => (uint32BE v).map (fun w => (⟨(w : ℚ) / 10, units.Unit.BAR⟩ : ParameterValue)) }

/-- P122 embeds `Parameters["P122"]` of parameters.go. -/
def P122 : Parameter := {
  Id := "P122",
  CapabilityByteIndex := 42,
  CapabilityBitIndex := 4,
  Address := some { Address := (0x0, 0x1, 0x13), Length := 1 },
  Value := fun v => match v with
    | b0 :: _ => some ⟨(b0 : ℚ) - 40, units.Unit.C⟩
    | [] => none }

/-- P123 embeds `Parameters["P123"]` of parameters.go. -/
def P123 : Parameter := {
  Id := "P123",
  CapabilityByteIndex := 42,
  CapabilityBitIndex := 3,
  Address := some { Address := (0x0, 0x1, 0x14), Length := 1 },
  Value := fun v => match v with
    | b0 :: _ => some ⟨(b0 : ℚ) / 255 * 100, units.Unit.Percent⟩
    | [] => none }

/-- P124 embeds `Parameters["P124"]` of parameters.go. -/
def P124 : Parameter := {
  Id := "P124",
  CapabilityByteIndex := 42,
  CapabilityBitIndex := 2,
  Address := some { Address := (0x0, 0x1, 0x15), Length := 1 },
  Value := fun v => match v with
    | b0 :: _ => some ⟨(b0 : ℚ) / 255 * 100, units.Unit.Percent⟩
    | [] => none }

/-- P125 embeds `Parameters["P125"]` of parameters.go. -/
def P125 : Parameter := {
  Id := "P125",
  CapabilityByteIndex := 42,
  CapabilityBitIndex := 1,
  Address := some { Address := (0x0, 0x1, 0x16), Length := 1 },
  Value := fun v => match v with
    | b0 :: _ => some ⟨(b0 : ℚ) * 32, units.Unit.Milliamps⟩
    | [] => none }

/-- P126 embeds `Parameters["P126"]` of parameters.go. -/
def P126 : Parameter := {
  Id := "P126",
  CapabilityByteIndex := 42,
  CapabilityBitIndex := 0,
  Address := some { Address := (0x0, 0x1, 0x17), Length := 1 },
  Value := fun v => match v with
    | b0 :: _ => some ⟨(b0 : ℚ) * 32, units.Unit.Milliamps⟩
    | [] => none }

/-- P127 embeds `Parameters["P127"]` of parameters.go. -/
def P127 : Parameter := {
  Id := "P127",
  CapabilityByteIndex := 43,
  CapabilityBitIndex := 1,
  Address := some { Address := (0x0, 0x1, 0x1e), Length := 1 },
  Value := fun v => match v with
    | b0 :: _ => some ⟨(b0 : ℚ), units.Unit.Raw⟩
    | [] => none }

/-- P128 embeds `Parameters["P128"]` of parameters.go. -/
def P128 : Parameter := {
  Id := "P128",
  CapabilityByteIndex := 50,
  CapabilityBitIndex := 7,
  Address := some { Address := (0x0, 0x1, 0x40), Length := 1 },
  Value := fun v => match v with
    | b0 :: _ => some ⟨(b0 : ℚ) / 255, units.Unit.Amps⟩
    | [] => none }

/-- P129 embeds `Parameters["P129"]` of parameters.go. -/
def P129 : Parameter := {
  Id := "P129",
  CapabilityByteIndex := 50,
  CapabilityBitIndex := 6,
  Address := some { Address := (0x0, 0x1, 0x41), Length := 1 },
  Value := fun v => match v with
    | b0 :: _ => some ⟨(b0 : ℚ) / 255, units.Unit.Amps⟩
    | [] => none }

/-- P130 embeds `Parameters["P130"]` of parameters.go. -/
def P130 : Parameter := {
  Id := "P130",
  CapabilityByteIndex := 50,
  CapabilityBitIndex := 5,
  Address := some { Address := (0x0, 0x1, 0x42), Length := 1 },
  Value := fun v => match v with
    | b0 :: _ => some ⟨(b0 : ℚ) / 255, units.Unit.Amps⟩
    | [] => none }

/-- P131 embeds `Parameters["P131"]` of parameters.go. -/
def P131 : Parameter := {
  Id := "P131",
  CapabilityByteIndex := 50,
  CapabilityBitIndex := 4,
  Address := some { Address := (0x0, 0x1, 0x43), Length := 1 },
  Value := fun v => match v with
    | b0 :: _ => some ⟨(b0 : ℚ) / 255, units.Unit.Amps⟩
    | [] => none }

/-- P132 embeds `Parameters["P132"]` of parameters.go. -/
def P132 : Parameter := {
  Id := "P132",
  CapabilityByteIndex := 50,
  CapabilityBitIndex := 3,
  Address := some { Address := (0x0, 0x1, 0x44), Length := 1 },
  Value := fun v => match v with
    | b0 :: _ => some ⟨(b0 : ℚ) / 255, units.Unit.Amps⟩
    | [] => none }

/-- P133 embeds `Parameters["P133"]` of parameters.go. -/
def P133 : Parameter := {
  Id := "P133",
  CapabilityByteIndex := 50,
  CapabilityBitIndex := 2,
  Address := some { Address := (0x0, 0x1, 0x45), Length := 1 },
  Value := fun v => match v with
    | b0 :: _ => some ⟨(b0 : ℚ) / 255, units.Unit.Amps⟩
    | [] => none }

/-- P134 embeds `Parameters["P134"]` of parameters.go. -/
def P134 : Parameter := {
  Id := "P134",
  CapabilityByteIndex := 50,
  CapabilityBitIndex := 1,
  Address := some { Address := (0x0, 0x1, 0x46), Length := 1 },
  Value := fun v => match v with
    | b0 :: _ => some ⟨(b0 : ℚ) / 255, units.Unit.Amps⟩
    | [] => none }

/-- P135 embeds `Parameters["P135"]` of parameters.go. -/
def P135 : Parameter := {
  Id := "P135",
  CapabilityByteIndex := 50,
  CapabilityBitIndex := 0,
  Address := some { Address := (0x0, 0x1, 0x47), Length := 1 },
  Value := fun v => match v with
    | b0 :: _ => some ⟨(b0 : ℚ) / 51, units.Unit.Volts⟩
    | [] => none }

/-- P136 embeds `Parameters["P136"]` of parameters.go. -/
def P136 : Parameter := {
  Id := "P136",
  CapabilityByteIndex := 51,
  CapabilityBitIndex := 7,
  Address := some { Address := (0x0, 0x1, 0x48), Length := 1 },
  Value := fun v => match v with
    | b0 :: _ => some ⟨(b0 : ℚ) * 10, units.Unit.KPA⟩
    | [] => none }

/-- P137 embeds `Parameters["P137"]` of parameters.go. -/
def P137 : Parameter := {
  Id := "P137",
  CapabilityByteIndex := 51,
  CapabilityBitIndex := 6,
  Address := some { Address := (0x0, 0x1, 0x49), Length := 1 },
  Value := fun v => match v with
    | b0 :: _ => some ⟨(b0 : ℚ) * 10, units.Unit.KPA⟩
    | [] => none }

/-- P138 embeds `Parameters["P138"]` of parameters.go. -/
def P138 : Parameter := {
  Id := "P138",
  CapabilityByteIndex := 51,
  CapabilityBitIndex := 5,
  Address := some { Address := (0x0, 0x1, 0x4a), Length := 1 },
  Value := fun v => match v with
    | b0 :: _ => some ⟨(b0 : ℚ) * 10, units.Unit.KPA⟩
    | [] => none }

/-- P139 embeds `Parameters["P139"]` of parameters.go. -/
def P139 : Parameter := {
  Id := "P139",
  CapabilityByteIndex := 51,
  CapabilityBitIndex := 4,
  Address := some { Address := (0x0, 0x1, 0x4b), Length := 1 },
  Value := fun v => match v with
    | b0 :: _ => some ⟨(b0 : ℚ) * 10, units.Unit.KPA⟩
    | [] => none }

/-- P140 embeds `Parameters["P140"]` of parameters.go. -/
def P140 : Parameter := {
  Id := "P140",
  CapabilityByteIndex := 51,
  CapabilityBitIndex := 3,
  Address := some { Address := (0x0, 0x1, 0x4c), Length := 1 },
  Value := fun v => match v with
    | b0 :: _ => some ⟨(b0 : ℚ) * 10, units.Unit.KPA⟩
    | [] => none }

/-- P141 embeds `Parameters["P141"]` of parameters.go. -/
def P141 : Parameter := {
  Id := "P141",
  CapabilityByteIndex := 51,
  CapabilityBitIndex := 2,
  Address := some { Address := (0x0, 0x1, 0x4d), Length := 1 },
  Value := fun v => match v with
    | b0 :: _ => some ⟨(b0 : ℚ) * 10, units.Unit.KPA⟩
    | [] => none }

/-- P142 embeds `Parameters["P142"]` of parameters.go. -/
def P142 : Parameter := {
  Id := "P142",
  CapabilityByteIndex := 51,
  CapabilityBitIndex := 1,
  Address := some { Address := (0x0, 0x1, 0x4e), Length := 1 },
  Value := fun v => match v with
    | b0 :: _ => some ⟨(b0 : ℚ) * 10, units.Unit.KPA⟩
    | [] => none }

/-- P143 embeds `Parameters["P143"]` of parameters.go. -/
def P143 : Parameter := {
  Id := "P143",
  CapabilityByteIndex := 51,
  CapabilityBitIndex := 0,
  Address := some { Address := (0x0, 0x1, 0x4f), Length := 1 },
  Value := fun v => match v with
    | b0 :: _ => some ⟨(b0 : ℚ) / 51, units.Unit.Volts⟩
    | [] => none }

/-- P144 embeds `Parameters["P144"]` of parameters.go. -/
def P144 : Parameter := {
  Id := "P144",
  CapabilityByteIndex := 52,
  CapabilityBitIndex := 7,
  Address := some { Address := (0x0, 0x1, 0x3c), Length := 1 },
  Value := fun v => match v with
    | b0 :: _ => some ⟨(b0 : ℚ), units.Unit.KMH⟩
    | [] => none }

/-- P145 embeds `Parameters["P145"]` of parameters.go. -/
def P145 : Parameter := {
  Id := "P145",
  CapabilityByteIndex := 52,
  CapabilityBitIndex := 6,
  Address := some { Address := (0x0, 0x1, 0x3d), Length := 1 },
  Value := fun v => match v with
    | b0 :: _ => some ⟨(b0 : ℚ), units.Unit.KMH⟩
    | [] => none }

/-- P146 embeds `Parameters["P146"]` of parameters.go. -/
def P146 : Parameter := {
  Id := "P146",
  CapabilityByteIndex := 52,
  CapabilityBitIndex := 5,
  Address := some { Address := (0x0, 0x1, 0x3e), Length := 1 },
  Value := fun v => match v with
    | b0 :: _ => some ⟨(b0 : ℚ), units.Unit.KMH⟩
    | [] => none }

/-- P147 embeds `Parameters["P147"]` of parameters.go. -/
def P147 : Parameter := {
  Id := "P147",
  CapabilityByteIndex := 52,
  CapabilityBitIndex := 4,
  Address := some { Address := (0x0, 0x1, 0x3f), Length := 1 },
  Value := fun v => match v with
    | b0 :: _ => some ⟨(b0 : ℚ), units.Unit.KMH⟩
    | [] => none }

/-- P148 embeds `Parameters["P148"]` of parameters.go. -/
def P148 : Parameter := {
  Id := "P148",
  CapabilityByteIndex := 52,
  CapabilityBitIndex := 3,
  Address := some { Address := (0x0, 0x1, 0x5a), Length := 1 },
  Value := fun v => match v with
    | b0 :: _ => some ⟨(b0 : ℚ), units.Unit.Degress⟩
    | [] => none }

/-- P149 embeds `Parameters["P149"]` of parameters.go. -/
def P149 : Parameter := {
  Id := "P149",
  CapabilityByteIndex := 52,
  CapabilityBitIndex := 1,
  Address := some { Address := (0x0, 0x1, 0x85), Length := 1 },
  Value := fun v => match v with
    | b0 :: _ => some ⟨(b0 : ℚ) / 255, units.Unit.Amps⟩
    | [] => none }

/-- P150 embeds `Parameters["P150"]` of parameters.go. -/
def P150 : Parameter := {
  Id := "P150",
  CapabilityByteIndex := 52,
  CapabilityBitIndex := 0,
  Address := some { Address := (0x0, 0x1, 0x86), Length := 1 },
  Value := fun v => match v with
    | b0 :: _ => some ⟨(b0 : ℚ) * 10, units.Unit.KPA⟩
    | [] => none }

/-- P151 embeds `Parameters["P151"]` of parameters.go. -/
def P151 : Parameter := {
  Id := "P151",
  CapabilityByteIndex := 55,
  CapabilityBitIndex := 3,
  Address := some { Address := (0x0, 0x0, 0xef), Length := 1 },
  Value := fun v => match v with
    | b0 :: _ => some ⟨(b0 : ℚ), units.Unit.MisfireCount⟩
    | [] => none }

/-- P152 embeds `Parameters["P152"]` of parameters.go. -/
def P152 : Parameter := {
  Id := "P152",
  CapabilityByteIndex := 55,
  CapabilityBitIndex := 2,
  Address := some { Address := (0x0, 0x0, 0xf8), Length := 1 },
  Value := fun v => match v with
    | b0 :: _ => some ⟨(b0 : ℚ), units.Unit.MisfireCount⟩
    | [] => none }

/-- P153 embeds `Parameters["P153"]` of parameters.go. -/
def P153 : Parameter := {
  Id := "P153",
  CapabilityByteIndex := 55,
  CapabilityBitIndex := 1,
  Address := some { Address := (0x0, 0x0, 0xf9), Length := 1 },
  Value := fun v => match v with
    | b0 :: _ => some ⟨(b0 : ℚ) / 16, units.Unit.Degress⟩
    | [] => none }

/-- P154 embeds `Parameters["P154"]` of parameters.go. -/
def P154 : Parameter := {
  Id := "P154",
  CapabilityByteIndex := 59,
  CapabilityBitIndex := 7,
  Address := some { Address := (0x0, 0x1, 0x9a), Length := 1 },
  Value := fun v => match v with
    | b0 :: _ => some ⟨((b0 : ℚ) - 128) / 2, units.Unit.HPA⟩
    | [] => none }

/-- P155 embeds `Parameters["P155"]` of parameters.go. -/
def P155 : Parameter := {
  Id := "P155",
  CapabilityByteIndex := 60,
  CapabilityBitIndex := 7,
  Address := some { Address := (0x0, 0x1, 0xe1), Length := 1 },
  Value := fun v => match v with
    | b0 :: _ => some ⟨(b0 : ℚ)/5 - 15, units.Unit.DegreesCrankAngle⟩
    | [] => none }

/-- P156 embeds `Parameters["P156"]` of parameters.go. -/
def P156 : Parameter := {
  Id := "P156",
  CapabilityByteIndex := 60,
  CapabilityBitIndex := 6,
  Address := some { Address := (0x0, 0x1, 0xe2), Length := 2 },
  Value := fun v => (uint32BE v).map (fun w => (⟨(w : ℚ) / 256, units.Unit.MM3PerStroke⟩ : ParameterValue)) }

/-- P157 embeds `Parameters["P157"]` of parameters.go. -/
def P157 : Parameter := {
  Id := "P157",
  CapabilityByteIndex := 60,
  CapabilityBitIndex := 5,
  Address := some { Address := (0x0, 0x1, 0xe4), Length := 1 },
  Value := fun v => match v with
    | b0 :: _ => some ⟨(b0 : ℚ), units.Unit.Count⟩
    | [] => none }

/-- P158 embeds `Parameters["P158"]` of parameters.go. -/
def P158 : Parameter := {
  Id := "P158",
  CapabilityByteIndex := 60,
  CapabilityBitIndex := 4,
  Address := some { Address := (0x0, 0x1, 0xe5), Length := 1 },
  Value := fun v => match v with
    | b0 :: _ => some ⟨(b0 : ℚ), units.Unit.KPA⟩
    | [] => none }

/-- P159 embeds `Parameters["P159"]` of parameters.go. -/
def P159 : Parameter := {
  Id := "P159",
  CapabilityByteIndex := 60,
  CapabilityBitIndex := 3,
  Address := some { Address := (0x0, 0x1, 0xe6), Length := 1 },
  Value := fun v => match v with
    | b0 :: _ => some ⟨(b0 : ℚ) * 10, units.Unit.MGPerCylinder⟩
    | [] => none }

/-- P160 embeds `Parameters["P160"]` of parameters.go. -/
def P160 : Parameter := {
  Id := "P160",
  CapabilityByteIndex := 60,
  CapabilityBitIndex := 2,
  Address := some { Address := (0x0, 0x1, 0xe7), Length := 1 },
  Value := fun v => match v with
    | b0 :: _ => some ⟨(b0 : ℚ) * 10, units.Unit.MGPerCylinder⟩
    | [] => none }

/-- P161 embeds `Parameters["P161"]` of parameters.go. -/
def P161 : Parameter := {
  Id := "P161",
  CapabilityByteIndex := 60,
  CapabilityBitIndex := 1,
  Address := some { Address := (0x0, 0x1, 0xe8), Length := 1 },
  Value := fun v => match v with
    | b0 :: _ => some ⟨(b0 : ℚ) - 50, units.Unit.Degress⟩
    | [] => none }

/-- P162 embeds `Parameters["P162"]` of parameters.go. -/
def P162 : Parameter := {
  Id := "P162",
  CapabilityByteIndex := 60,
  CapabilityBitIndex := 0,
  Address := some { Address := (0x0, 0x1, 0xe9), Length := 1 },
  Value := fun v => match v with
    | b0 :: _ => some ⟨(b0 : ℚ) - 50, units.Unit.Degress⟩
    | [] => none }

/-- P163 embeds `Parameters["P163"]` of parameters.go. -/
def P163 : Parameter := {
  Id := "P163",
  CapabilityByteIndex := 61,
  CapabilityBitIndex := 7,
  Address := some { Address := (0x0, 0x1, 0xea), Length := 1 },
  Value := fun v => match v with
    | b0 :: _ => some ⟨(b0 : ℚ), units.Unit.Percent⟩
    | [] => none }

/-- P164 embeds `Parameters["P164"]` of parameters.go. -/
def P164 : Parameter := {
  Id := "P164",
  CapabilityByteIndex := 61,
  CapabilityBitIndex := 6,
  Address := some { Address := (0x0, 0x1, 0xeb), Length := 1 },
  Value := fun v => match v with
    | b0 :: _ => some ⟨(b0 : ℚ), units.Unit.MPA⟩
    | [] => none }

/-- P165 embeds `Parameters["P165"]` of parameters.go. -/
def P165 : Parameter := {
  Id := "P165",
  CapabilityByteIndex := 61,
  CapabilityBitIndex := 5,
  Address := some { Address := (0x0, 0x1, 0xec), Length := 1 },
  Value := fun v => match v with
    | b0 :: _ => some ⟨(b0 : ℚ), units.Unit.MPA⟩
    | [] => none }

/-- P166 embeds `Parameters["P166"]` of parameters.go. -/
def P166 : Parameter := {
  Id := "P166",
  CapabilityByteIndex := 61,
  CapabilityBitIndex := 4,
  Address := some { Address := (0x0, 0x1, 0xed), Length := 1 },
  Value := fun v => match v with
    | b0 :: _ => some ⟨(b0 : ℚ) - 40, units.Unit.C⟩
    | [] => none }

/-- P167 embeds `Parameters["P167"]` of parameters.go. -/
def P167 : Parameter := {
  Id := "P167",
  CapabilityByteIndex := 61,
  CapabilityBitIndex := 3,
  Address := some { Address := (0x0, 0x1, 0xee), Length := 2 },
  Value := fun v => (uint32BE v).map (fun w => (⟨(w : ℚ) / 4, units.Unit.RPM⟩ : ParameterValue)) }

/-- P168 embeds `Parameters["P168"]` of parameters.go. -/
def P168 : Parameter := {
  Id := "P168",
  CapabilityByteIndex := 61,
  CapabilityBitIndex := 2,
  Address := some { Address := (0x0, 0x1, 0xf0), Length := 1 },
  Value := fun v => match v with
    | b0 :: _ => some ⟨(b0 : ℚ) - 128, units.Unit.Percent⟩
    | [] => none }

/-- P169 embeds `Parameters["P169"]` of parameters.go. -/
def P169 : Parameter := {
  Id := "P169",
  CapabilityByteIndex := 61,
  CapabilityBitIndex := 1,
  Address := some { Address := (0x0, 0x1, 0xf5), Length := 1 },
  Value := fun v => match v with
    | b0 :: _ => some ⟨(b0 : ℚ), units.Unit.Amps⟩
    | [] => none }

/-- P170 embeds `Parameters["P170"]` of parameters.go. -/
def P170 : Parameter := {
  Id := "P170",
  CapabilityByteIndex := 61,
  CapabilityBitIndex := 0,
  Address := some { Address := (0x0, 0x1, 0xf6), Length := 2 },
  Value := fun v => (uint32BE v).map (fun w => (⟨(w : ℚ), units.Unit.Milliamps⟩ : ParameterValue)) }

/-- P171 embeds `Parameters["P171"]` of parameters.go. -/
def P171 : Parameter := {
  Id := "P171",
  CapabilityByteIndex := 62,
  CapabilityBitIndex := 7,
  Address := some { Address := (0x0, 0x1, 0xf1), Length := 1 },
  Value := fun v => match v with
    | b0 :: _ => some ⟨(b0 : ℚ) * 0.19118, units.Unit.DegreesPerSecond⟩
    | [] => none }

/-- P172 embeds `Parameters["P172"]` of parameters.go. -/
def P172 : Parameter := {
  Id := "P172",
  CapabilityByteIndex := 62,
  CapabilityBitIndex := 6,
  Address := some { Address := (0x0, 0x1, 0xf2), Length := 1 },
  Value := fun v => match v with
    | b0 :: _ => some ⟨(b0 : ℚ) * 1.0862, units.Unit.MetersPerSecondSquared⟩
    | [] => none }

/-- P173 embeds `Parameters["P173"]` of parameters.go. -/
def P173 : Parameter := {
  Id := "P173",
  CapabilityByteIndex := 62,
  CapabilityBitIndex := 5,
  Address := some { Address := (0x0, 0x1, 0xf3), Length := 1 },
  Value := fun v => match v with
    | b0 :: _ => some ⟨(b0 : ℚ), units.Unit.Raw⟩
    | [] => none }

/-- P174 embeds `Parameters["P174"]` of parameters.go. -/
def P174 : Parameter := {
  Id := "P174",
  CapabilityByteIndex := 62,
  CapabilityBitIndex := 4,
  Address := some { Address := (0x0, 0x1, 0xf4), Length := 1 },
  Value := fun v => match v with
    | b0 :: _ => some ⟨(b0 : ℚ), units.Unit.Raw⟩
    | [] => none }

/-- P175 embeds `Parameters["P175"]` of parameters.go. -/
def P175 : Parameter := {
  Id := "P175",
  CapabilityByteIndex := 63,
  CapabilityBitIndex := 7,
  Address := some { Address := (0x0, 0x1, 0xf8), Length := 2 },
  Value := fun v => (uint32BE v).map (fun w => (⟨(w : ℚ), units.Unit.Milliamps⟩ : ParameterValue)) }

/-- P176 embeds `Parameters["P176"]` of parameters.go. -/
def P176 : Parameter := {
  Id := "P176",
  CapabilityByteIndex := 63,
  CapabilityBitIndex := 6,
  Address := some { Address := (0x0, 0x1, 0xfa), Length := 2 },
  Value := fun v => (uint32BE v).map (fun w => (⟨(w : ℚ) * 5, units.Unit.Kilometers⟩ : ParameterValue)) }

/-- P177 embeds `Parameters["P177"]` of parameters.go. -/
def P177 : Parameter := {
  Id := "P177",
  CapabilityByteIndex := 63,
  CapabilityBitIndex := 5,
  Address := some { Address := (0x0, 0x2, 0x4), Length := 2 },
  Value := fun v => (uint32BE v).map (fun w => (⟨(w : ℚ) * 5, units.Unit.Kilometers⟩ : ParameterValue)) }

/-- P178 embeds `Parameters["P178"]` of parameters.go. -/
def P178 : Parameter := {
  Id := "P178",
  CapabilityByteIndex := 63,
  CapabilityBitIndex := 4,
  Address := some { Address := (0x0, 0x2, 0x70), Length := 1 },
  Value := fun v => match v with
    | b0 :: _ => some ⟨(b0 : ℚ), units.Unit.Steps⟩
    | [] => none }

/-- P179 embeds `Parameters["P179"]` of parameters.go. -/
def P179 : Parameter := {
  Id := "P179",
  CapabilityByteIndex := 63,
  CapabilityBitIndex := 3,
  Address := some { Address := (0x0, 0x2, 0x5d), Length := 1 },
  Value := fun v => match v with
    | b0 :: _ => some ⟨((b0 : ℚ) - 100) * 10, units.Unit.US⟩
    | [] => none }

/-- P180 embeds `Parameters["P180"]` of parameters.go. -/
def P180 : Parameter := {
  Id := "P180",
  CapabilityByteIndex := 63,
  CapabilityBitIndex := 2,
  Address := some { Address := (0x0, 0x2, 0x5e), Length := 1 },
  Value := fun v => match v with
    | b0 :: _ => some ⟨((b0 : ℚ) - 100) * 10, units.Unit.US⟩
    | [] => none }

/-- P181 embeds `Parameters["P181"]` of parameters.go. -/
def P181 : Parameter := {
  Id := "P181",
  CapabilityByteIndex := 63,
  CapabilityBitIndex := 1,
  Address := some { Address := (0x0, 0x2, 0x5f), Length := 1 },
  Value := fun v => match v with
    | b0 :: _ => some ⟨((b0 : ℚ) - 100) * 10, units.Unit.US⟩
    | [] => none }

/-- P182 embeds `Parameters["P182"]` of parameters.go. -/
def P182 : Parameter := {
  Id := "P182",
  CapabilityByteIndex := 63,
  CapabilityBitIndex := 0,
  Address := some { Address := (0x0, 0x2, 0x60), Length := 1 },
  Value := fun v => match v with
    | b0 :: _ => some ⟨((b0 : ℚ) - 100) * 10, units.Unit.US⟩
    | [] => none }

/-- P183 embeds `Parameters["P183"]` of parameters.go. -/
def P183 : Parameter := {
  Id := "P183",
  CapabilityByteIndex := 64,
  CapabilityBitIndex := 7,
  Address := some { Address := (0x0, 0x2, 0x71), Length := 1 },
  Value := fun v => match v with
    | b0 :: _ => some ⟨(b0 : ℚ) - 128, units.Unit.Amps⟩
    | [] => none }

/-- P184 embeds `Parameters["P184"]` of parameters.go. -/
def P184 : Parameter := {
  Id := "P184",
  CapabilityByteIndex := 64,
  CapabilityBitIndex := 6,
  Address := some { Address := (0x0, 0x2, 0x73), Length := 1 },
  Value := fun v => match v with
    | b0 :: _ => some ⟨(b0 : ℚ) - 40, units.Unit.C⟩
    | [] => none }

/-- P185 embeds `Parameters["P185"]` of parameters.go. -/
def P185 : Parameter := {
  Id := "P185",
  CapabilityByteIndex := 64,
  CapabilityBitIndex := 5,
  Address := some { Address := (0x0, 0x2, 0x72), Length := 1 },
  Value := fun v => match v with
    | b0 :: _ => some ⟨(b0 : ℚ), units.Unit.Index⟩
    | [] => none }

/-- P186 embeds `Parameters["P186"]` of parameters.go. -/
def P186 : Parameter := {
  Id := "P186",
  CapabilityByteIndex := 70,
  CapabilityBitIndex := 7,
  Address := some { Address := (0x0, 0x2, 0x75), Length := 1 },
  Value := fun v => match v with
    | b0 :: _ => some ⟨(b0 : ℚ), units.Unit.Percent⟩
    | [] => none }

/-- P187 embeds `Parameters["P187"]` of parameters.go. -/
def P187 : Parameter := {
  Id := "P187",
  CapabilityByteIndex := 70,
  CapabilityBitIndex := 6,
  Address := some { Address := (0x0, 0x2, 0x76), Length := 1 },
  Value := fun v => match v with
    | b0 :: _ => some ⟨(b0 : ℚ), units.Unit.KPA⟩
    | [] => none }

/-- P188 embeds `Parameters["P188"]` of parameters.go. -/
def P188 : Parameter := {
  Id := "P188",
  CapabilityByteIndex := 70,
  CapabilityBitIndex := 5,
  Address := some { Address := (0x0, 0x2, 0x77), Length := 1 },
  Value := fun v => match v with
    | b0 :: _ => some ⟨(b0 : ℚ)*5 - 40, units.Unit.C⟩
    | [] => none }

/-- P189 embeds `Parameters["P189"]` of parameters.go. -/
def P189 : Parameter := {
  Id := "P189",
  CapabilityByteIndex := 70,
  CapabilityBitIndex := 4,
  Address := some { Address := (0x0, 0x2, 0x78), Length := 1 },
  Value := fun v => match v with
    | b0 :: _ => some ⟨(b0 : ℚ)*5 - 40, units.Unit.C⟩
    | [] => none }

/-- P190 embeds `Parameters["P190"]` of parameters.go. -/
def P190 : Parameter := {
  Id := "P190",
  CapabilityByteIndex := 70,
  CapabilityBitIndex := 3,
  Address := some { Address := (0x0, 0x2, 0x79), Length := 1 },
  Value := fun v => match v with
    | b0 :: _ => some ⟨(b0 : ℚ)*5 - 40, units.Unit.C⟩
    | [] => none }

/-- P191 embeds `Parameters["P191"]` of parameters.go. -/
def P191 : Parameter := {
  Id := "P191",
  CapabilityByteIndex := 70,
  CapabilityBitIndex := 2,
  Address := some { Address := (0x0, 0x2, 0x7a), Length := 1 },
  Value := fun v => match v with
    | b0 :: _ => some ⟨(b0 : ℚ)*5 - 40, units.Unit.C⟩
    | [] => none }

/-- P192 embeds `Parameters["P192"]` of parameters.go. -/
def P192 : Parameter := {
  Id := "P192",
  CapabilityByteIndex := 70,
  CapabilityBitIndex := 1,
  Address := some { Address := (0x0, 0x2, 0x7b), Length := 1 },
  Value := fun v => match v with
    | b0 :: _ => some ⟨(b0 : ℚ), units.Unit.Percent⟩
    | [] => none }

/-- P193 embeds `Parameters["P193"]` of parameters.go. -/
def P193 : Parameter := {
  Id := "P193",
  CapabilityByteIndex := 70,
  CapabilityBitIndex := 0,
  Address := some { Address := (0x0, 0x2, 0x7c), Length := 1 },
  Value := fun v => match v with
    | b0 :: _ => some ⟨(b0 : ℚ), units.Unit.Percent⟩
    | [] => none }

/-- P194 embeds `Parameters["P194"]` of parameters.go. -/
def P194 : Parameter := {
  Id := "P194",
  CapabilityByteIndex := 71,
  CapabilityBitIndex := 7,
  Address := some { Address := (0x0, 0x2, 0x93), Length := 1 },
  Value := fun v => match v with
    | b0 :: _ => some ⟨(b0 : ℚ) / 128, units.Unit.Percent⟩
    | [] => none }

/-- P195 embeds `Parameters["P195"]` of parameters.go. -/
def P195 : Parameter := {
  Id := "P195",
  CapabilityByteIndex := 71,
  CapabilityBitIndex := 6,
  Address := some { Address := (0x0, 0x2, 0x94), Length := 1 },
  Value := fun v => match v with
    | b0 :: _ => some ⟨(b0 : ℚ) * 143 / 255, units.Unit.MPH⟩
    | [] => none }

/-- P196 embeds `Parameters["P196"]` of parameters.go. -/
def P196 : Parameter := {
  Id := "P196",
  CapabilityByteIndex := 71,
  CapabilityBitIndex := 5,
  Address := some { Address := (0x0, 0x2, 0x95), Length := 1 },
  Value := fun v => match v with
    | b0 :: _ => some ⟨(b0 : ℚ) * 143 / 255, units.Unit.MPH⟩
    | [] => none }

/-- P197 embeds `Parameters["P197"]` of parameters.go. -/
def P197 : Parameter := {
  Id := "P197",
  CapabilityByteIndex := 71,
  CapabilityBitIndex := 4,
  Address := some { Address := (0x0, 0x2, 0x96), Length := 2 },
  Value := fun v => (uint32BE v).map (fun w => (⟨(w : ℚ) * 40 / 13107, units.Unit.Percent⟩ : ParameterValue)) }

/-- P198 embeds `Parameters["P198"]` of parameters.go. -/
def P198 : Parameter := {
  Id := "P198",
  CapabilityByteIndex := 72,
  CapabilityBitIndex := 7,
  Address := some { Address := (0x0, 0x2, 0x98), Length := 1 },
  Value := fun v => match v with
    | b0 :: _ => some ⟨(b0 : ℚ), units.Unit.Time⟩
    | [] => none }

/-- P199 embeds `Parameters["P199"]` of parameters.go. -/
def P199 : Parameter := {
  Id := "P199",
  CapabilityByteIndex := 72,
  CapabilityBitIndex := 6,
  Address := some { Address := (0x0, 0x2, 0x99), Length := 1 },
  Value := fun v => match v with
    | b0 :: _ => some ⟨(b0 : ℚ), units.Unit.Time⟩
    | [] => none }

/-- P204 embeds `Parameters["P204"]` of parameters.go. -/
def P204 : Parameter := {
  Id := "P204",
  CapabilityByteIndex := 72,
  CapabilityBitIndex := 5,
  Address := some { Address := (0x0, 0x2, 0x1f), Length := 1 },
  Value := fun v => match v with
    | b0 :: _ => some ⟨(b0 : ℚ), units.Unit.MPA⟩
    | [] => none }

/-- P205 embeds `Parameters["P205"]` of parameters.go. -/
def P205 : Parameter := {
  Id := "P205",
  CapabilityByteIndex := 72,
  CapabilityBitIndex := 4,
  Address := some { Address := (0x0, 0x2, 0x9a), Length := 1 },
  Value := fun v => match v with
    | b0 :: _ => some ⟨(b0 : ℚ) * 62, units.Unit.Miles⟩
    | [] => none }

/-- P206 embeds `Parameters["P206"]` of parameters.go. -/
def P206 : Parameter := {
  Id := "P206",
  CapabilityByteIndex := 72,
  CapabilityBitIndex := 3,
  Address := some { Address := (0x0, 0x2, 0x9b), Length := 2 },
  Value := fun v => (uint32BE v).map (fun w => (⟨(w : ℚ), units.Unit.Kilometers⟩ : ParameterValue)) }

/-- P207 embeds `Parameters["P207"]` of parameters.go. -/
def P207 : Parameter := {
  Id := "P207",
  CapabilityByteIndex := 72,
  CapabilityBitIndex := 2,
  Address := some { Address := (0x0, 0x2, 0x9d), Length := 2 },
  Value := fun v => (uint32BE v).map (fun w => (⟨(w : ℚ), units.Unit.Times⟩ : ParameterValue)) }

/-- P208 embeds `Parameters["P208"]` of parameters.go. -/
def P208 : Parameter := {
  Id := "P208",
  CapabilityByteIndex := 72,
  CapabilityBitIndex := 1,
  Address := some { Address := (0x0, 0x2, 0x3d), Length := 1 },
  Value := fun v => match v with
    | b0 :: _ => some ⟨((b0 : ℚ) - 128) * 5, units.Unit.US⟩
    | [] => none }

/-- P209 embeds `Parameters["P209"]` of parameters.go. -/
def P209 : Parameter := {
  Id := "P209",
  CapabilityByteIndex := 72,
  CapabilityBitIndex := 0,
  Address := some { Address := (0x0, 0x2, 0x3e), Length := 1 },
  Value := fun v => match v with
    | b0 :: _ => some ⟨((b0 : ℚ) - 128) * 5, units.Unit.US⟩
    | [] => none }

/-- P210 embeds `Parameters["P210"]` of parameters.go. -/
def P210 : Parameter := {
  Id := "P210",
  CapabilityByteIndex := 73,
  CapabilityBitIndex := 7,
  Address := some { Address := (0x0, 0x2, 0x3f), Length := 1 },
  Value := fun v => match v with
    | b0 :: _ => some ⟨((b0 : ℚ) - 128) * 5, units.Unit.US⟩
    | [] => none }

/-- P211 embeds `Parameters["P211"]` of parameters.go. -/
def P211 : Parameter := {
  Id := "P211",
  CapabilityByteIndex := 73,
  CapabilityBitIndex := 6,
  Address := some { Address := (0x0, 0x2, 0x40), Length := 1 },
  Value := fun v => match v with
    | b0 :: _ => some ⟨((b0 : ℚ) - 128) * 5, units.Unit.US⟩
    | [] => none }

/-- P212 embeds `Parameters["P212"]` of parameters.go. -/
def P212 : Parameter := {
  Id := "P212",
  CapabilityByteIndex := 73,
  CapabilityBitIndex := 5,
  Address := some { Address := (0x0, 0x2, 0x41), Length := 1 },
  Value := fun v => match v with
    | b0 :: _ => some ⟨((b0 : ℚ) - 128) * 5, units.Unit.US⟩
    | [] => none }

/-- P213 embeds `Parameters["P213"]` of parameters.go. -/
def P213 : Parameter := {
  Id := "P213",
  CapabilityByteIndex := 73,
  CapabilityBitIndex := 4,
  Address := some { Address := (0x0, 0x2, 0x42), Length := 1 },
  Value := fun v => match v with
    | b0 :: _ => some ⟨((b0 : ℚ) - 128) * 5, units.Unit.US⟩
    | [] => none }

/-- P214 embeds `Parameters["P214"]` of parameters.go. -/
def P214 : Parameter := {
  Id := "P214",
  CapabilityByteIndex := 73,
  CapabilityBitIndex := 3,
  Address := some { Address := (0x0, 0x2, 0x43), Length := 1 },
  Value := fun v => match v with
    | b0 :: _ => some ⟨((b0 : ℚ) - 128) * 5, units.Unit.US⟩
    | [] => none }

/-- P215 embeds `Parameters["P215"]` of parameters.go. -/
def P215 : Parameter := {
  Id := "P215",
  CapabilityByteIndex := 73,
  CapabilityBitIndex := 2,
  Address := some { Address := (0x0, 0x2, 0x44), Length := 1 },
  Value := fun v => match v with
    | b0 :: _ => some ⟨((b0 : ℚ) - 128) * 5, units.Unit.US⟩
    | [] => none }

/-- P216 embeds `Parameters["P216"]` of parameters.go. -/
def P216 : Parameter := {
  Id := "P216",
  CapabilityByteIndex := 73,
  CapabilityBitIndex := 1,
  Address := some { Address := (0x0, 0x2, 0x45), Length := 1 },
  Value := fun v => match v with
    | b0 :: _ => some ⟨((b0 : ℚ) - 128) * 5, units.Unit.US⟩
    | [] => none }

/-- P217 embeds `Parameters["P217"]` of parameters.go. -/
def P217 : Parameter := {
  Id := "P217",
  CapabilityByteIndex := 73,
  CapabilityBitIndex := 0,
  Address := some { Address := (0x0, 0x2, 0x46), Length := 1 },
  Value := fun v => match v with
    | b0 :: _ => some ⟨((b0 : ℚ) - 128) * 5, units.Unit.US⟩
    | [] => none }

/-- P218 embeds `Parameters["P218"]` of parameters.go. -/
def P218 : Parameter := {
  Id := "P218",
  CapabilityByteIndex := 74,
  CapabilityBitIndex := 7,
  Address := some { Address := (0x0, 0x2, 0x47), Length := 1 },
  Value := fun v => match v with
    | b0 :: _ => some ⟨((b0 : ℚ) - 128) * 5, units.Unit.US⟩
    | [] => none }

/-- P219 embeds `Parameters["P219"]` of parameters.go. -/
def P219 : Parameter := {
  Id := "P219",
  CapabilityByteIndex := 74,
  CapabilityBitIndex := 6,
  Address := some { Address := (0x0, 0x2, 0x48), Length := 1 },
  Value := fun v => match v with
    | b0 :: _ => some ⟨((b0 : ℚ) - 128) * 5, units.Unit.US⟩
    | [] => none }

/-- P220 embeds `Parameters["P220"]` of parameters.go. -/
def P220 : Parameter := {
  Id := "P220",
  CapabilityByteIndex := 74,
  CapabilityBitIndex := 5,
  Address := some { Address := (0x0, 0x2, 0x49), Length := 1 },
  Value := fun v => match v with
    | b0 :: _ => some ⟨((b0 : ℚ) - 128) * 5, units.Unit.US⟩
    | [] => none }

/-- P221 embeds `Parameters["P221"]` of parameters.go. -/
def P221 : Parameter := {
  Id := "P221",
  CapabilityByteIndex := 74,
  CapabilityBitIndex := 4,
  Address := some { Address := (0x0, 0x2, 0x4a), Length := 1 },
  Value := fun v => match v with
    | b0 :: _ => some ⟨((b0 : ℚ) - 128) * 5, units.Unit.US⟩
    | [] => none }

/-- P222 embeds `Parameters["P222"]` of parameters.go. -/
def P222 : Parameter := {
  Id := "P222",
  CapabilityByteIndex := 74,
  CapabilityBitIndex := 3,
  Address := some { Address := (0x0, 0x2, 0x4b), Length := 1 },
  Value := fun v => match v with
    | b0 :: _ => some ⟨((b0 : ℚ) - 128) * 5, units.Unit.US⟩
    | [] => none }

/-- P223 embeds `Parameters["P223"]` of parameters.go. -/
def P223 : Parameter := {
  Id := "P223",
  CapabilityByteIndex := 74,
  CapabilityBitIndex := 2,
  Address := some { Address := (0x0, 0x2, 0x4c), Length := 1 },
  Value := fun v => match v with
    | b0 :: _ => some ⟨((b0 : ℚ) - 128) * 5, units.Unit.US⟩
    | [] => none }

/-- P224 embeds `Parameters["P224"]` of parameters.go. -/
def P224 : Parameter := {
  Id := "P224",
  CapabilityByteIndex := 74,
  CapabilityBitIndex := 1,
  Address := some { Address := (0x0, 0x2, 0x4d), Length := 1 },
  Value := fun v => match v with
    | b0 :: _ => some ⟨((b0 : ℚ) - 128) * 5, units.Unit.US⟩
    | [] => none }

/-- P225 embeds `Parameters["P225"]` of parameters.go. -/
def P225 : Parameter := {
  Id := "P225",
  CapabilityByteIndex := 74,
  CapabilityBitIndex := 0,
  Address := some { Address := (0x0, 0x2, 0x4e), Length := 1 },
  Value := fun v => match v with
    | b0 :: _ => some ⟨((b0 : ℚ) - 128) * 5, units.Unit.US⟩
    | [] => none }

/-- P226 embeds `Parameters["P226"]` of parameters.go. -/
def P226 : Parameter := {
  Id := "P226",
  CapabilityByteIndex := 76,
  CapabilityBitIndex := 7,
  Address := some { Address := (0x0, 0x2, 0x4f), Length := 1 },
  Value := fun v => match v with
    | b0 :: _ => some ⟨((b0 : ℚ) - 128) * 5, units.Unit.US⟩
    | [] => none }

/-- P227 embeds `Parameters["P227"]` of parameters.go. -/
def P227 : Parameter := {
  Id := "P227",
  CapabilityByteIndex := 76,
  CapabilityBitIndex := 6,
  Address := some { Address := (0x0, 0x2, 0x50), Length := 1 },
  Value := fun v => match v with
    | b0 :: _ => some ⟨((b0 : ℚ) - 128) * 5, units.Unit.US⟩
    | [] => none }

/-- P228 embeds `Parameters["P228"]` of parameters.go. -/
def P228 : Parameter := {
  Id := "P228",
  CapabilityByteIndex := 76,
  CapabilityBitIndex := 5,
  Address := some { Address := (0x0, 0x2, 0x38), Length := 2 },
  Value := fun v => (uint32BE v).map (fun w => (⟨(w : ℚ) - 1000, units.Unit.Milliamps⟩ : ParameterValue)) }

/-- P229 embeds `Parameters["P229"]` of parameters.go. -/
def P229 : Parameter := {
  Id := "P229",
  CapabilityByteIndex := 76,
  CapabilityBitIndex := 4,
  Address := some { Address := (0x0, 0x2, 0x57), Length := 2 },
  Value := fun v => (uint32BE v).map (fun w => (⟨(w : ℚ), units.Unit.US⟩ : ParameterValue)) }

/-- P233 embeds `Parameters["P233"]` of parameters.go. -/
def P233 : Parameter := {
  Id := "P233",
  CapabilityByteIndex := 60,
  CapabilityBitIndex := 6,
  Address := some { Address := (0x0, 0x2, 0x55), Length := 2 },
  Value := fun v => (uint32BE v).map (fun w => (⟨(w : ℚ), units.Unit.US⟩ : ParameterValue)) }

/-- P234 embeds `Parameters["P234"]` of parameters.go. -/
def P234 : Parameter := {
  Id := "P234",
  CapabilityByteIndex := 60,
  CapabilityBitIndex := 6,
  Address := some { Address := (0x0, 0x2, 0x2f), Length := 2 },
  Value := fun v => (uint32BE v).map (fun w => (⟨(w : ℚ)/256 - 30, units.Unit.MM3PerStroke⟩ : ParameterValue)) }

/-- P235 embeds `Parameters["P235"]` of parameters.go. -/
def P235 : Parameter := {
  Id := "P235",
  CapabilityByteIndex := 60,
  CapabilityBitIndex := 6,
  Address := some { Address := (0x0, 0x2, 0x31), Length := 1 },
  Value := fun v => match v with
    | b0 :: _ => some ⟨(b0 : ℚ) / 50, units.Unit.DegreesCrankAngle⟩
    | [] => none }

/-- P236 embeds `Parameters["P236"]` of parameters.go. -/
def P236 : Parameter := {
  Id := "P236",
  CapabilityByteIndex := 60,
  CapabilityBitIndex := 6,
  Address := some { Address := (0x0, 0x2, 0xa2), Length := 1 },
  Value := fun v => match v with
    | b0 :: _ => some ⟨(b0 : ℚ) * 5, units.Unit.Grams⟩
    | [] => none }

/-- P238 embeds `Parameters["P238"]` of parameters.go. -/
def P238 : Parameter := {
  Id := "P238",
  CapabilityByteIndex := 60,
  CapabilityBitIndex := 6,
  Address := some { Address := (0x0, 0x2, 0x32), Length := 2 },
  Value := fun v => (uint32BE v).map (fun w => (⟨(w : ℚ) - 50, units.Unit.Nm⟩ : ParameterValue)) }

/-- P239 embeds `Parameters["P239"]` of parameters.go. -/
def P239 : Parameter := {
  Id := "P239",
  CapabilityByteIndex := 8,
  CapabilityBitIndex := 0,
  Address := some { Address := (0x0, 0x0, 0x6f), Length := 1 },
  Value := fun v => match v with
    | b0 :: _ => some ⟨0 - (b0 : ℚ), units.Unit.Degress⟩
    | [] => none }

/-- P240 embeds `Parameters["P240"]` of parameters.go. -/
def P240 : Parameter := {
  Id := "P240",
  CapabilityByteIndex := 8,
  CapabilityBitIndex := 0,
  Address := some { Address := (0x0, 0x0, 0x70), Length := 1 },
  Value := fun v => match v with
    | b0 :: _ => some ⟨(b0 : ℚ)*25 - 3200, units.Unit.RPM⟩
    | [] => none }

/-- P241 embeds `Parameters["P241"]` of parameters.go. -/
def P241 : Parameter := {
  Id := "P241",
  CapabilityByteIndex := 8,
  CapabilityBitIndex := 0,
  Address := some { Address := (0x0, 0x0, 0x71), Length := 1 },
  Value := fun v => match v with
    | b0 :: _ => some ⟨(b0 : ℚ)*25 - 3200, units.Unit.RPM⟩
    | [] => none }

/-- P244 embeds `Parameters["P244"]` of parameters.go. -/
def P244 : Parameter := {
  Id := "P244",
  CapabilityByteIndex := 41,
  CapabilityBitIndex := 7,
  Address := some { Address := (0x0, 0x1, 0x8), Length := 1 },
  Value := fun v => match v with
    | b0 :: _ => some ⟨(b0 : ℚ), units.Unit.KPA⟩
    | [] => none }

/-- P245 embeds `Parameters["P245"]` of parameters.go. -/
def P245 : Parameter := {
  Id := "P245",
  CapabilityByteIndex := 41,
  CapabilityBitIndex := 6,
  Address := some { Address := (0x0, 0x1, 0x82), Length := 2 },
  Value := fun v => (uint32BE v).map (fun w => (⟨(w : ℚ) / 100, units.Unit.GS⟩ : ParameterValue)) }

/-- Parameters embeds the `Parameters` table of parameters.go, in source
order (the Go map is indexed by id; iteration order is not fixed, and no
claim below depends on the order of this list). -/
def Parameters : List Parameter :=
  [P1, P2, P3, P4, P5, P6, P7, P8, P9, P10,
   P11, P12, P13, P14, P15, P16, P17, P18, P19, P20,
   P21, P22, P23, P24, P25, P26, P27, P28, P29, P30,
   P31, P32, P33, P34, P35, P36, P37, P38, P39, P40,
   P41, P42, P43, P44, P45, P46, P47, P48, P49, P50,
   P51, P52, P53, P54, P55, P56, P57, P58, P59, P60,
   P61, P62, P63, P64, P65, P66, P67, P68, P69, P70,
   P71, P72, P73, P74, P75, P76, P77, P78, P79, P80,
   P81, P82, P83, P84, P85, P86, P87, P88, P89, P90,
   P91, P92, P93, P94, P95, P96, P97, P98, P99, P100,
   P101, P102, P103, P104, P105, P106, P107, P108, P109, P110,
   P111, P112, P113, P114, P115, P116, P117, P118, P119, P120,
   P121, P122, P123, P124, P125, P126, P127, P128, P129, P130,
   P131, P132, P133, P134, P135, P136, P137, P138, P139, P140,
   P141, P142, P143, P144, P145, P146, P147, P148, P149, P150,
   P151, P152, P153, P154, P155, P156, P157, P158, P159, P160,
   P161, P162, P163, P164, P165, P166, P167, P168, P169, P170,
   P171, P172, P173, P174, P175, P176, P177, P178, P179, P180,
   P181, P182, P183, P184, P185, P186, P187, P188, P189, P190,
   P191, P192, P193, P194, P195, P196, P197, P198, P199, P204,
   P205, P206, P207, P208, P209, P210, P211, P212, P213, P214,
   P215, P216, P217, P218, P219, P220, P221, P222, P223, P224,
   P225, P226, P227, P228, P229, P233, P234, P235, P236, P238,
   P239, P240, P241, P244, P245]
/-- mget models a Go `map[string]ParameterValue` lookup on the value
maps handed to derived parameters.  A missing key yields the zero
`ParameterValue` (value 0 and the zero `Unit`, the empty string); the
empty string tag has no conversion edges, exactly like `Raw`, which
stands in for it here.  No claim below evaluates a derived parameter on
a map missing one of its dependencies. -/
def mget (m : List (String × ParameterValue)) (k : String) : ParameterValue :=
  ((m.find? (fun e => e.1 == k)).map Prod.snd).getD ⟨0, units.Unit.Raw⟩

/-- P200 embeds `DerivedParameters["P200"]` (Engine Load, Calculated). -/
def P200 : DerivedParameter := {
  Id := "P200",
  DependsOnParameters := ["P8", "P12"],
  Value := fun m =>
    some ⟨((mget m "P12").Value * 60) / (mget m "P8").Value,
      units.Unit.GramsPerRev⟩ }

/-- P201 embeds `DerivedParameters["P201"]` (Injector Duty Cycle). -/
def P201 : DerivedParameter := {
  Id := "P201",
  DependsOnParameters := ["P8", "P21"],
  Value := fun m =>
    some ⟨((mget m "P8").Value *
      ((mget m "P21").SafeConvertTo units.Unit.US).Value) / 1200,
      units.Unit.Percent⟩ }

/-- P202 embeds `DerivedParameters["P202"]` (Manifold Relative Pressure,
Corrected). -/
def P202 : DerivedParameter := {
  Id := "P202",
  DependsOnParameters := ["P7", "P24"],
  Value := fun m =>
    some ⟨((mget m "P7").SafeConvertTo units.Unit.KPA).Value -
      ((mget m "P24").SafeConvertTo units.Unit.KPA).Value,
      units.Unit.PSI⟩ }

/-- P203 embeds `DerivedParameters["P203"]` (Fuel Consumption, Est.). -/
def P203 : DerivedParameter := {
  Id := "P203",
  DependsOnParameters := ["P9", "P12", "P58"],
  Value := fun m =>
    some ⟨(((mget m "P9").SafeConvertTo units.Unit.KMH).Value / 3600) /
      (((mget m "P12").Value /
        ((mget m "P58").SafeConvertTo units.Unit.Lambda).Value) / 2880),
      units.Unit.MPGUS⟩ }

/-- P230 embeds `DerivedParameters["P230"]` (Final Injection Amount). -/
def P230 : DerivedParameter := {
  Id := "P230",
  DependsOnParameters := ["P156", "P31"],
  Value := fun m =>
    some ⟨(mget m "P156").Value *
      (835 - (0.7 * (((mget m "P31").SafeConvertTo units.Unit.C).Value - 15))) / 1000,
      units.Unit.MGPerCylinder⟩ }

/-- P231 embeds `DerivedParameters["P231"]` (Angle of Main Injection). -/
def P231 : DerivedParameter := {
  Id := "P231",
  DependsOnParameters := ["P229", "P8"],
  Value := fun m =>
    some ⟨((mget m "P229").SafeConvertTo units.Unit.US).Value /
      (2777.77 / ((mget m "P8").Value / 60)),
      units.Unit.DegreesCrankAngle⟩ }

/-- P232 embeds `DerivedParameters["P232"]` (Lambda, Smoke Behaviour). -/
def P232 : DerivedParameter := {
  Id := "P232",
  DependsOnParameters := ["P160", "P230"],
  Value := fun m =>
    some ⟨((mget m "P160").Value / (mget m "P230").Value) / 14.7,
      units.Unit.Lambda⟩ }

/-- P237 embeds `DerivedParameters["P237"]` (Air mass/charge pressure
coefficient). -/
def P237 : DerivedParameter := {
  Id := "P237",
  DependsOnParameters := ["P160", "P7"],
  Value := fun m =>
    some ⟨(mget m "P160").Value /
      ((mget m "P7").SafeConvertTo units.Unit.KPA).Value,
      units.Unit.Coefficient⟩ }

/-- P242 embeds `DerivedParameters["P242"]` (Volumetric Efficiency 2.0L). -/
def P242 : DerivedParameter := {
  Id := "P242",
  DependsOnParameters := ["P200", "P11", "P7"],
  Value := fun m =>
    some ⟨((mget m "P200").Value * 2 * 8.314472 *
      (((mget m "P11").SafeConvertTo units.Unit.C).Value + 273.15)) /
      (((mget m "P7").SafeConvertTo units.Unit.KPA).Value * 2.0 * 28.97) * 100,
      units.Unit.Percent⟩ }

/-- P243 embeds `DerivedParameters["P243"]` (Volumetric Efficiency 2.5L). -/
def P243 : DerivedParameter := {
  Id := "P243",
  DependsOnParameters := ["P200", "P11", "P7"],
  Value := fun m =>
    some ⟨((mget m "P200").Value * 2 * 8.314472 *
      (((mget m "P11").SafeConvertTo units.Unit.C).Value + 273.15)) /
      (((mget m "P7").SafeConvertTo units.Unit.KPA).Value * 2.5 * 28.97) * 100,
      units.Unit.Percent⟩ }

/-- DerivedParameters embeds the `DerivedParameters` table, in source
order. -/
def DerivedParameters : List DerivedParameter :=
  [P200, P201, P202, P203, P230, P231, P232, P237, P242, P243]

/-! Capability resolver (packets.go / parameters.go). -/

/-- ECU embeds `ECU`: ids plus the supported parameter lists produced
by the init-response parser. -/
structure ECU where
  SSM_ID : List Nat
  ROM_ID : List Nat
  SupportedParameters : List Parameter
  SupportedDerivedParameters : List DerivedParameter

/-- supportedParameters embeds the primitive-capability loop of
`parseECUFromInitResponse`: a parameter is kept when its capability
byte index lies inside the data and the corresponding bit is set.  The
Go mask `1 << p.CapabilityBitIndex` is a byte, hence the `% 256`. -/
def supportedParameters (catalog : List Parameter) (data : List Nat) :
    List Parameter :=
  catalog.filter (fun p =>
    decide (p.CapabilityByteIndex < data.length) &&
    (data.getD p.CapabilityByteIndex 0 &&&
      ((1 <<< p.CapabilityBitIndex) % 256)) != 0)

/-- AvailableDerivedParameters embeds `AvailableDerivedParameters`: a
derived parameter is kept when every dependency id names an included
primitive. -/
def AvailableDerivedParameters (dcatalog : List DerivedParameter)
    (params : List Parameter) : List DerivedParameter :=
  dcatalog.filter (fun d =>
    d.DependsOnParameters.all (fun dep => params.any (fun p => p.Id == dep)))

/-- parseECUFromInitResponse embeds `parseECUFromInitResponse`.  The Go
code slices the data segment as `data[:3]` and `data[3:8]`; Go slice
expressions are capacity-checked, and every packet handed to this
parser was assembled by `NextPacket` via `append(make([]byte, 5),
payload...)`, whose growth leaves `cap(packet) >= 16` and hence
`cap(data) >= 11`, so both slices succeed even on a data segment
shorter than 8 bytes and read bytes of the freshly allocated backing
array beyond the segment length.  Those padding bytes are modelled as
zeros; no claim depends on their values (the capability loop below
indexes `data` only under the length guard `CapabilityByteIndex <
dLen`, exactly as the Go code does). -/
def parseECUFromInitResponse (p : Packet) : ECU :=
  let data := p.Data
  let padded := data ++ List.replicate (8 - data.length) 0
  { SSM_ID := padded.take 3,
    ROM_ID := (padded.drop 3).take 5,
    SupportedParameters := supportedParameters Parameters data,
    SupportedDerivedParameters :=
      AvailableDerivedParameters DerivedParameters
        (supportedParameters Parameters data) }

/-! Byte-stream model of the Connection (connection.go).  The serial
port is modelled as the finite list of bytes it will deliver; writes
always succeed and are reported as the first component of the result.
A read that asks for more bytes than remain in the stream times out.
Recursion through the stream is driven by an explicit fuel parameter;
every concrete evaluation below supplies enough fuel, and exhausting
it is reported as its own error, never as normal termination. -/

/-- ReadError models the error results of `NextPacket`. -/
inductive ReadError where
  | readTimeout
  | invalidHeader
  | invalidChecksum
  | fuelExhausted
  deriving DecidableEq, Repr

/-- readInFull embeds `readInFull` on the stream model: take exactly
`n` bytes or time out. -/
def readInFull (n : Nat) (s : List Nat) : Option (List Nat × List Nat) :=
  if n ≤ s.length then some (s.take n, s.drop n) else none

/-- readPayloadPhase is the tail of `NextPacket` after a validated
header: read `header[3]` payload bytes, append, and check that the
trailing byte equals the computed checksum. -/
def readPayloadPhase (header : List Nat) (s : List Nat) :
    Except ReadError (Packet × List Nat) :=
  match readInFull (header.getD 3 0) s with
  | none => .error .readTimeout
  | some (payload, rest) =>
    let packet := header ++ payload
    if (packet.getLast?).getD 0 = CalculateChecksum packet then
      .ok (packet, rest)
    else .error .invalidChecksum

/-- NextPacket embeds `NextPacket`: read a 5-byte header; on an invalid
header, fail if it begins with the magic byte, otherwise slide to the
first magic byte inside it (reading the missing bytes) and re-validate,
or restart from scratch when no magic byte is present; then read the
payload and verify the checksum. -/
def NextPacket : Nat → List Nat → Except ReadError (Packet × List Nat)
  | 0, _ => .error .fuelExhausted
  | fuel + 1, s =>
    match readInFull PacketHeaderSize s with
    | none => .error .readTimeout
    | some (header, s1) =>
      if validateHeader header then readPayloadPhase header s1
      else if header.getD 0 0 = PacketMagicByte then .error .invalidHeader
      else
        match header.findIdx? (fun b => b == PacketMagicByte) with
        | none => NextPacket fuel s1
        | some k =>
          match readInFull k s1 with
          | none => .error .readTimeout
          | some (rem, s2) =>
            let header2 := header.drop k ++ rem
            if validateHeader header2 then readPayloadPhase header2 s2
            else .error .invalidHeader

/-- echoLoop embeds the read-back loop of `sendPacket`: keep reading
packets while the received command byte equals the just-sent one. -/
def echoLoop : Nat → Nat → List Nat → Except ReadError (Packet × List Nat)
  | 0, _, _ => .error .fuelExhausted
  | fuel + 1, sentCommand, s =>
    match NextPacket (fuel + 1) s with
    | .error e => .error e
    | .ok (pkt, s2) =>
      if pkt.getD 4 0 = sentCommand then echoLoop fuel sentCommand s2
      else .ok (pkt, s2)

/-- sendPacket embeds `sendPacket`: write the packet bytes (first
component of the result) and read the next non-echo packet. -/
def sendPacket (fuel : Nat) (p : Packet) (s : List Nat) :
    List Nat × Except ReadError (Packet × List Nat) :=
  (p, echoLoop fuel (p.getD 4 0) s)

/-- InitError models the error results of `InitECU`: a failed read or
a response with the wrong command. -/
inductive InitError where
  | read (e : ReadError)
  | invalidResponseCommand
  deriving DecidableEq, Repr

/-- InitECU embeds `InitECU`: build the init request, send it, demand
the init-response command, and parse the ECU from the response. -/
def InitECU (fuel : Nat) (s : List Nat) :
    List Nat × Except InitError (ECU × List Nat) :=
  let p := newPacket DeviceDiagnosticTool DeviceEngine CommandInitRequest []
  let r := sendPacket fuel p s
  (r.1,
    match r.2 with
    | .error e => .error (.read e)
    | .ok (rp, s2) =>
      if rp.getD 4 0 = CommandInitResponse then
        .ok (parseECUFromInitResponse rp, s2)
      else .error .invalidResponseCommand)

/-! Logging session packet loop (logging.go, processPackets). -/

/-- decodeFrame embeds the primitive-decoding loop of `processPackets`:
walk the parameter list, slicing `Address.Length` bytes for each
parameter in order and decoding them.  A nil address, a slice beyond
the data length, or a panicking decoder is a fault (`none`). -/
def decodeFrame : List Parameter → List Nat → Nat →
    Option (List (String × ParameterValue))
  | [], _, _ => some []
  | p :: rest, data, addrIndex =>
    match p.Address with
    | none => none
    | some a =>
      if addrIndex + a.Length ≤ data.length then
        match p.Value ((data.drop addrIndex).take a.Length) with
        | some pv =>
          (decodeFrame rest data (addrIndex + a.Length)).map
            (fun vs => (p.Id, pv) :: vs)
        | none => none
      else none

/-- evalDerived embeds the derived-parameter loop of `processPackets`:
evaluate each derived parameter on the accumulated map, inserting
successful results and skipping errors. -/
def evalDerived : List DerivedParameter → List (String × ParameterValue) →
    List (String × ParameterValue)
  | [], values => values
  | d :: rest, values =>
    match d.Value values with
    | some pv => evalDerived rest (values ++ [(d.Id, pv)])
    | none => evalDerived rest values

/-- SessionEnd describes how the `processPackets` loop terminated:
the context was cancelled (the trace of reads was exhausted), the
consecutive-error budget closed the channel, or a decoder fault. -/
inductive SessionEnd where
  | canceled
  | errorBudget
  | decodeFault
  deriving DecidableEq, Repr

/-- processPackets embeds the `processPackets` loop over the trace of
`NextPacket` outcomes (`none` is a frame-level failure).  It returns
the values published to the channel in order and how the loop ended.
Channel blocking is not modelled here (see the session step relation
below for that); the trace ends at the first `ctx.Done()` check that
observes cancellation. -/
def processPackets (params : List Parameter)
    (derived : List DerivedParameter) :
    Nat → List (Option Packet) →
    List (List (String × ParameterValue)) × SessionEnd
  | _, [] => ([], .canceled)
  | errCount, none :: rest =>
    if errCount + 1 = 3 then ([], .errorBudget)
    else processPackets params derived (errCount + 1) rest
  | _, some pkt :: rest =>
    match decodeFrame params pkt.Data 0 with
    | none => ([], .decodeFault)
    | some values =>
      let out := evalDerived derived values
      let r := processPackets params derived 0 rest
      (out :: r.1, r.2)

/-! Interleaving model of the logging session (logging.go) for the
cancellation claim.  The state tracks the producer goroutine position
in `processPackets`, the number of values buffered in the results
channel (capacity 10, from `make(chan ..., 10)`), the context flag,
and whether the channel has been closed. -/

/-- ProcPC is the producer position inside the `processPackets` loop:
about to run the `select`, blocked in `conn.NextPacket`, or about to
run the channel send `results <- values`; `stopped` is after a
`close(results); return`. -/
inductive ProcPC where
  | atSelect (errCount : Nat)
  | reading (errCount : Nat)
  | atSend
  | stopped
  deriving DecidableEq, Repr

/-- SessionState is one interleaving state of the logging session. -/
structure SessionState where
  pc : ProcPC
  buffered : Nat
  canceled : Bool
  closed : Bool
  deriving DecidableEq, Repr

/-- channelCapacity is the results channel capacity
(`make(chan map[string]ParameterValue, 10)`). -/
def channelCapacity : Nat := 10

/-- ProducerStep lists the transitions of the producer goroutine of
`processPackets`, read off the Go source: the `select` closes the
channel when the context is already cancelled and otherwise falls to
the default branch and starts a read; a read either yields a frame or
an error (a cancellation arriving during the read surfaces as an
error); the third consecutive error closes the channel; the channel
send is unguarded and can only fire while the buffer has room.  There
is deliberately no transition from `atSend` on a full buffer and no
cancellation check at `atSend`: that is the behaviour of the unguarded
`results <- values` statement. -/
inductive ProducerStep : SessionState → SessionState → Prop where
  | closeOnCancel (e b) :
      ProducerStep ⟨.atSelect e, b, true, false⟩ ⟨.stopped, b, true, true⟩
  | selectDefault (e b) :
      ProducerStep ⟨.atSelect e, b, false, false⟩ ⟨.reading e, b, false, false⟩
  | readSuccess (e b c) :
      ProducerStep ⟨.reading e, b, c, false⟩ ⟨.atSend, b, c, false⟩
  | readFailure (e b c) (h : e + 1 ≠ 3) :
      ProducerStep ⟨.reading e, b, c, false⟩ ⟨.atSelect (e + 1), b, c, false⟩
  | readFailureBudget (e b c) (h : e + 1 = 3) :
      ProducerStep ⟨.reading e, b, c, false⟩ ⟨.stopped, b, c, true⟩
  | send (b c) (h : b < channelCapacity) :
      ProducerStep ⟨.atSend, b, c, false⟩ ⟨.atSelect 0, b + 1, c, false⟩

/-- SessionStep is a producer step, a consumer receive, or the
caller's one-shot cancellation. -/
inductive SessionStep : SessionState → SessionState → Prop where
  | producer {s t} (h : ProducerStep s t) : SessionStep s t
  | consume (pc b c cl) (h : 0 < b) :
      SessionStep ⟨pc, b, c, cl⟩ ⟨pc, b - 1, c, cl⟩
  | cancel (pc b cl) :
      SessionStep ⟨pc, b, false, cl⟩ ⟨pc, b, true, cl⟩

/-- sessionInit is the state right after `LoggingSession` spawns
`processPackets`: at the loop head, empty channel, context live. -/
def sessionInit : SessionState :=
  ⟨.atSelect 0, 0, false, false⟩

/-- SessionReachable holds for states reachable from `sessionInit`. -/
def SessionReachable (s : SessionState) : Prop :=
  Relation.ReflTransGen SessionStep sessionInit s

end ssm2

/-! Claims.  Each claim of the specification is settled by exactly one
theorem below. -/

/-- C6: when InitECU is invoked, the bytes written to the transport are
exactly 80 10 F0 01 BF 40 (source=diag-tool 0xF0, destination=engine
0x10, command=init-request 0xBF, empty payload, payload-size 1,
checksum 0x40), for every stream and fuel. -/
theorem c6_init_request_shape (fuel : Nat) (s : List Nat) :
    (ssm2.InitECU fuel s).1 = [0x80, 0x10, 0xF0, 0x01, 0xBF, 0x40] := rfl

/-- C7: for every allowed source, destination and command and every
payload whose length plus one fits in a byte, the Data accessor applied
to the packet produced by newPacket returns exactly the payload. -/
theorem c7_data_roundtrip (src dest cmd : Nat) (data : List Nat)
    (_hsrc : src ∈ ssm2.devices) (_hdest : dest ∈ ssm2.devices)
    (_hcmd : cmd ∈ ssm2.commands) (_hlen : data.length + 1 < 256) :
    (ssm2.newPacket src dest cmd data).Data = data := by
  simp [ssm2.newPacket, ssm2.Packet.Data, ssm2.PacketHeaderSize]

/-- C7 witness: the round-trip at the init request arguments. -/
theorem c7_data_roundtrip_witness :
    0xf0 ∈ ssm2.devices ∧ 0x10 ∈ ssm2.devices ∧
    0xbf ∈ ssm2.commands ∧ ([] : List Nat).length + 1 < 256 ∧
    (ssm2.newPacket 0xf0 0x10 0xbf []).Data = [] :=
  ⟨by decide, by decide, by decide, by decide,
   c7_data_roundtrip 0xf0 0x10 0xbf [] (by decide) (by decide) (by decide)
     (by decide)⟩

/-- C8 counterexample: the unit-graph Convert has no self-edges, so
converting 25 from mph to mph reports an invalid conversion instead of
returning 25. -/
theorem c8_counterexample :
    units.Convert 25 units.Unit.MPH units.Unit.MPH =
      .error units.ConvError.invalidConversion := rfl

/-- C8 (amended): self-conversion is the identity and always succeeds
for ParameterValue.ConvertTo, which short-circuits an equal target
unit; the unit-graph Convert has no self-edges and reports
invalid-conversion on every self-conversion. -/
theorem c8_self_conversion (x : ℚ) (u : units.Unit) :
    ssm2.ParameterValue.ConvertTo ⟨x, u⟩ u = .ok ⟨x, u⟩ ∧
    units.Convert x u u = .error units.ConvError.invalidConversion := by
  refine ⟨by simp [ssm2.ParameterValue.ConvertTo], ?_⟩
  cases u <;> rfl

/-- C9: SafeConvertTo never errors: it returns the converted value
whenever ConvertTo succeeds and the zero value tagged with the target
unit whenever ConvertTo fails; in particular converting 25 mph to AFR
yields (0, AFR). -/
theorem c9_safe_convert_total (v : ssm2.ParameterValue) (u : units.Unit) :
    ((∃ w, ssm2.ParameterValue.ConvertTo v u = .ok w ∧
        ssm2.ParameterValue.SafeConvertTo v u = w) ∨
      (ssm2.ParameterValue.ConvertTo v u =
          .error units.ConvError.invalidConversion ∧
        ssm2.ParameterValue.SafeConvertTo v u = ⟨0, u⟩)) ∧
    ssm2.ParameterValue.SafeConvertTo ⟨25, units.Unit.MPH⟩ units.Unit.AFR =
      ⟨0, units.Unit.AFR⟩ := by
  refine ⟨?_, rfl⟩
  cases h : ssm2.ParameterValue.ConvertTo v u with
  | ok w =>
    exact Or.inl ⟨w, rfl, by simp [ssm2.ParameterValue.SafeConvertTo, h]⟩
  | error e =>
    cases e
    exact Or.inr ⟨rfl, by simp [ssm2.ParameterValue.SafeConvertTo, h]⟩

/-- C5: the length-2 parameter P8 declares two addresses but its
decoder reads a big-endian 32-bit integer, which indexes past a
two-byte input: decoding any two-byte slice faults instead of
returning the 16-bit big-endian combination. -/
theorem c5_p8_decoder_fault :
    (ssm2.P8.Address.map ssm2.ParameterAddress.Length) = some 2 ∧
    ssm2.P8.Value [0x0e, 0x42] = none :=
  ⟨rfl, rfl⟩

/-- C4 counterexample: with addresses [00 00 01, 00 00 0A] and
continuous=false, the payload-size byte written by
SendReadAddressesRequest is 0x08 (= len(data)+1 = (1+3*2)+1), not the
0x09 the claim states. -/
theorem c4_counterexample :
    (ssm2.sendReadAddressesWrites [(0,0,0x01), (0,0,0x0A)] false).getD 3 0 =
      0x08 ∧ (0x08 : Nat) ≠ 0x09 := by
  decide

/-- C4 (amended): with addresses [00 00 01, 00 00 0A] and
continuous=false the bytes written are exactly
80 10 F0 08 A8 00 00 00 01 00 00 0A 3B; with continuous=true the byte
at index 5 is 01 instead of 00 (and the checksum becomes 3C). -/
theorem c4_read_addresses_framing :
    ssm2.sendReadAddressesWrites [(0,0,0x01), (0,0,0x0A)] false =
      [0x80, 0x10, 0xF0, 0x08, 0xA8,
       0x00, 0x00, 0x00, 0x01, 0x00, 0x00, 0x0A, 0x3B] ∧
    ssm2.sendReadAddressesWrites [(0,0,0x01), (0,0,0x0A)] true =
      [0x80, 0x10, 0xF0, 0x08, 0xA8,
       0x01, 0x00, 0x00, 0x01, 0x00, 0x00, 0x0A, 0x3C] := by
  decide

/-- C1: on the byte stream yielding first the echoed init request
bytes 80 10 F0 01 BF 40 and then the valid init response
80 F0 10 01 FF 80, InitECU discards the echo (looping until a frame
with a different command byte arrives) and returns a non-null ECU,
with no further bytes remaining in the stream. -/
theorem c1_init_echo_tolerance :
    ∃ ecu : ssm2.ECU,
      ssm2.InitECU 4 [0x80, 0x10, 0xF0, 0x01, 0xBF, 0x40,
                      0x80, 0xF0, 0x10, 0x01, 0xFF, 0x80] =
        ([0x80, 0x10, 0xF0, 0x01, 0xBF, 0x40], .ok (ecu, [])) :=
  ⟨_, rfl⟩

/-- Helper for C2: with the error counter at `c ≤ 2`, the
processPackets loop closes the channel on the error budget exactly
when the trace begins with `3 - c` failures or contains three
consecutive failures, provided no successful frame faults the
decoder. -/
theorem processPackets_budget_aux (params : List ssm2.Parameter)
    (derived : List ssm2.DerivedParameter) :
    ∀ (t : List (Option ssm2.Packet)) (c : Nat), c ≤ 2 →
    (∀ pkt, some pkt ∈ t → ssm2.decodeFrame params pkt.Data 0 ≠ none) →
    ((ssm2.processPackets params derived c t).2 = .errorBudget ↔
      ((∃ l2, t = List.replicate (3 - c) none ++ l2) ∨
       (∃ l1 l2, t = l1 ++ none :: none :: none :: l2))) := by
  intro t
  induction t with
  | nil =>
    intro c hc _
    constructor
    · intro h; exact absurd h (by simp [ssm2.processPackets])
    · rintro (⟨l2, h⟩ | ⟨l1, l2, h⟩)
      · have h3 : 3 - c ≠ 0 := by omega
        rcases Nat.exists_eq_succ_of_ne_zero h3 with ⟨k, hk⟩
        rw [hk, List.replicate_succ] at h
        exact absurd h (by simp)
      · exact absurd h (by simp)
  | cons head rest ih =>
    intro c hc hdec
    cases head with
    | none =>
      by_cases h3 : c + 1 = 3
      · have hc2 : c = 2 := by omega
        subst hc2
        constructor
        · intro _
          exact Or.inl ⟨rest, by simp⟩
        · intro _
          simp [ssm2.processPackets]
      · have hL : (ssm2.processPackets params derived c (none :: rest)).2 =
            (ssm2.processPackets params derived (c + 1) rest).2 := by
          simp [ssm2.processPackets, h3]
        have hstep := ih (c + 1) (by omega)
          (fun pkt hm => hdec pkt (by simp [hm]))
        rw [hL, hstep]
        have hsucc : 3 - c = (3 - (c + 1)) + 1 := by omega
        constructor
        · rintro (⟨l2, h⟩ | ⟨l1, l2, h⟩)
          · exact Or.inl ⟨l2, by rw [h, hsucc]; simp [List.replicate_succ]⟩
          · exact Or.inr ⟨none :: l1, l2, by rw [h]; rfl⟩
        · rintro (⟨l2, h⟩ | ⟨l1, l2, h⟩)
          · rw [hsucc, List.replicate_succ] at h
            rcases List.cons_eq_cons.mp h with ⟨-, h2⟩
            exact Or.inl ⟨l2, h2⟩
          · cases l1 with
            | nil =>
              rcases List.cons_eq_cons.mp h with ⟨-, h2⟩
              have hc1 : c = 0 ∨ c = 1 := by omega
              rcases hc1 with rfl | rfl
              · exact Or.inl ⟨l2, by simpa using h2⟩
              · exact Or.inl ⟨none :: l2, by simpa using h2⟩
            | cons x l1 =>
              rcases List.cons_eq_cons.mp h with ⟨-, h2⟩
              exact Or.inr ⟨l1, l2, h2⟩
    | some pkt =>
      have hd := hdec pkt (by simp)
      cases hv : ssm2.decodeFrame params pkt.Data 0 with
      | none => exact absurd hv hd
      | some values =>
        have hL : (ssm2.processPackets params derived c (some pkt :: rest)).2 =
            (ssm2.processPackets params derived 0 rest).2 := by
          simp [ssm2.processPackets, hv]
        have hstep := ih 0 (by omega) (fun q hm => hdec q (by simp [hm]))
        rw [hL, hstep]
        constructor
        · rintro (⟨l2, h⟩ | ⟨l1, l2, h⟩)
          · exact Or.inr ⟨[some pkt], l2, by rw [h]; rfl⟩
          · exact Or.inr ⟨some pkt :: l1, l2, by rw [h]; rfl⟩
        · rintro (⟨l2, h⟩ | ⟨l1, l2, h⟩)
          · have h3 : 3 - c ≠ 0 := by omega
            rcases Nat.exists_eq_succ_of_ne_zero h3 with ⟨k, hk⟩
            rw [hk, List.replicate_succ] at h
            exact absurd (List.cons_eq_cons.mp h).1 (by simp)
          · cases l1 with
            | nil => exact absurd (List.cons_eq_cons.mp h).1 (by simp)
            | cons x l1 =>
              rcases List.cons_eq_cons.mp h with ⟨-, h2⟩
              exact Or.inr ⟨l1, l2, h2⟩

/-- C2: the logging session loop closes the output channel via the
error budget exactly when the trace of NextPacket outcomes contains
three consecutive frame-level failures; in particular a successful
frame resets the counter and at most two consecutive failures are
tolerated.  The hypothesis rules out the decoder fault of C5 on
successful frames. -/
theorem c2_error_budget (params : List ssm2.Parameter)
    (derived : List ssm2.DerivedParameter)
    (t : List (Option ssm2.Packet))
    (hdec : ∀ pkt, some pkt ∈ t → ssm2.decodeFrame params pkt.Data 0 ≠ none) :
    ((ssm2.processPackets params derived 0 t).2 = .errorBudget ↔
      ∃ l1 l2, t = l1 ++ none :: none :: none :: l2) := by
  rw [processPackets_budget_aux params derived t 0 (by omega) hdec]
  constructor
  · rintro (⟨l2, h⟩ | h)
    · exact ⟨[], l2, by simpa using h⟩
    · exact h
  · exact Or.inr

/-- C2 witness: three straight failures close the channel. -/
theorem c2_error_budget_witness :
    (ssm2.processPackets [] [] 0 [none, none, none]).2 = .errorBudget :=
  (c2_error_budget [] [] [none, none, none]
    (by intro pkt h; simp at h)).mpr ⟨[], [], rfl⟩

/-- Helper for C10: a bitwise-monotone pair of masks preserves a
non-zero bitwise and. -/
theorem land_ne_zero_mono (a b m : Nat)
    (hab : ∀ j, a.testBit j = true → b.testBit j = true)
    (h : a &&& m ≠ 0) : b &&& m ≠ 0 := by
  obtain ⟨j, hj⟩ := Nat.ne_zero_implies_bit_true h
  rw [Nat.testBit_land, Bool.and_eq_true] at hj
  intro h0
  have ht : (b &&& m).testBit j = true := by
    rw [Nat.testBit_land, Bool.and_eq_true]
    exact ⟨hab j hj.1, hj.2⟩
  rw [h0] at ht
  simp [Nat.zero_testBit] at ht

/-- Helper for C10: the primitive capability filter is monotone in the
capability data. -/
theorem supportedParameters_mono (catalog : List ssm2.Parameter)
    (caps1 caps2 : List Nat)
    (hlen : caps1.length = caps2.length)
    (hbits : ∀ i j, (caps1.getD i 0).testBit j = true →
      (caps2.getD i 0).testBit j = true) :
    ssm2.supportedParameters catalog caps1 ⊆
      ssm2.supportedParameters catalog caps2 := by
  intro q hq
  rw [ssm2.supportedParameters, List.mem_filter] at hq ⊢
  refine ⟨hq.1, ?_⟩
  have h2 := hq.2
  rw [Bool.and_eq_true] at h2 ⊢
  obtain ⟨hidx, hbit⟩ := h2
  rw [decide_eq_true_iff] at hidx
  refine ⟨by rw [decide_eq_true_iff]; omega, ?_⟩
  rw [bne_iff_ne] at hbit ⊢
  exact land_ne_zero_mono _ _ _ (hbits q.CapabilityByteIndex) hbit

/-- Helper for C10: the derived-parameter closure is monotone in the
included primitive list. -/
theorem availableDerived_mono (dcat : List ssm2.DerivedParameter)
    (s1 s2 : List ssm2.Parameter) (hsub : s1 ⊆ s2) :
    ssm2.AvailableDerivedParameters dcat s1 ⊆
      ssm2.AvailableDerivedParameters dcat s2 := by
  intro d hd
  rw [ssm2.AvailableDerivedParameters, List.mem_filter] at hd ⊢
  refine ⟨hd.1, ?_⟩
  rw [List.all_eq_true] at hd ⊢
  intro dep hdep
  have h := hd.2 dep hdep
  rw [List.any_eq_true] at h ⊢
  obtain ⟨p, hp, heq⟩ := h
  exact ⟨p, hsub hp, heq⟩

/-- C10: the capability resolver is monotone: when every bit set in
caps1 is also set in caps2 (and the payloads have equal length), the
supported primitives of caps1 form a subset of those of caps2, and
likewise for the derived closure. -/
theorem c10_capability_resolver_monotone (caps1 caps2 : List Nat)
    (hlen : caps1.length = caps2.length)
    (hbits : ∀ i j, (caps1.getD i 0).testBit j = true →
      (caps2.getD i 0).testBit j = true) :
    ssm2.supportedParameters ssm2.Parameters caps1 ⊆
      ssm2.supportedParameters ssm2.Parameters caps2 ∧
    ssm2.AvailableDerivedParameters ssm2.DerivedParameters
        (ssm2.supportedParameters ssm2.Parameters caps1) ⊆
      ssm2.AvailableDerivedParameters ssm2.DerivedParameters
        (ssm2.supportedParameters ssm2.Parameters caps2) := by
  have h := supportedParameters_mono ssm2.Parameters caps1 caps2 hlen hbits
  exact ⟨h, availableDerived_mono ssm2.DerivedParameters _ _ h⟩

/-- C10 witness: the resolver at the all-zero and all-ones single
capability byte. -/
theorem c10_capability_resolver_monotone_witness :
    ssm2.supportedParameters ssm2.Parameters [0] ⊆
      ssm2.supportedParameters ssm2.Parameters [255] ∧
    ssm2.AvailableDerivedParameters ssm2.DerivedParameters
        (ssm2.supportedParameters ssm2.Parameters [0]) ⊆
      ssm2.AvailableDerivedParameters ssm2.DerivedParameters
        (ssm2.supportedParameters ssm2.Parameters [255]) :=
  c10_capability_resolver_monotone [0] [255] rfl
    (by
      intro i j h
      rcases i with _ | i <;> simp [List.getD] at h)

/-- Helper for C3: one successful read-decode-send cycle of the
producer while the buffer has room and the context is live. -/
theorem session_cycle (b : Nat) (h : b < ssm2.channelCapacity) :
    Relation.ReflTransGen ssm2.SessionStep
      ⟨.atSelect 0, b, false, false⟩ ⟨.atSelect 0, b + 1, false, false⟩ := by
  have s1 : ssm2.SessionStep
      ⟨.atSelect 0, b, false, false⟩ ⟨.reading 0, b, false, false⟩ :=
    .producer (.selectDefault 0 b)
  have s2 : ssm2.SessionStep
      ⟨.reading 0, b, false, false⟩ ⟨.atSend, b, false, false⟩ :=
    .producer (.readSuccess 0 b false)
  have s3 : ssm2.SessionStep
      ⟨.atSend, b, false, false⟩ ⟨.atSelect 0, b + 1, false, false⟩ :=
    .producer (.send b false h)
  exact .head s1 (.head s2 (.head s3 .refl))

/-- Helper for C3: the producer can fill the results channel with `n`
values while the consumer never receives. -/
theorem session_fill (n : Nat) (h : n ≤ ssm2.channelCapacity) :
    Relation.ReflTransGen ssm2.SessionStep ssm2.sessionInit
      ⟨.atSelect 0, n, false, false⟩ := by
  induction n with
  | zero => exact .refl
  | succ k ih =>
    exact (ih (by omega)).trans (session_cycle k (by omega))

/-- C3 fails on the code: the channel send in processPackets is not
guarded by the cancellation signal.  First, a state is reachable in
which the context is cancelled, the output channel is unclosed, and no
producer transition is enabled (the producer is blocked forever in the
send on a full channel while the consumer has stopped receiving), so
the channel is never closed after cancellation.  Second, a state is
reachable in which, after cancellation, the producer still performs a
send on the output channel. -/
theorem c3_cancellation_not_honored :
    (∃ s : ssm2.SessionState, ssm2.SessionReachable s ∧
      s.canceled = true ∧ s.closed = false ∧
      ∀ t, ¬ ssm2.ProducerStep s t) ∧
    (∃ s t : ssm2.SessionState, ssm2.SessionReachable s ∧
      s.canceled = true ∧ s.closed = false ∧
      ssm2.ProducerStep s t ∧ t.buffered = s.buffered + 1) := by
  constructor
  · refine ⟨⟨.atSend, ssm2.channelCapacity, true, false⟩, ?_, rfl, rfl, ?_⟩
    · have h1 := session_fill ssm2.channelCapacity (le_refl _)
      have h2 : ssm2.SessionStep
          ⟨.atSelect 0, ssm2.channelCapacity, false, false⟩
          ⟨.reading 0, ssm2.channelCapacity, false, false⟩ :=
        .producer (.selectDefault 0 ssm2.channelCapacity)
      have h3 : ssm2.SessionStep
          ⟨.reading 0, ssm2.channelCapacity, false, false⟩
          ⟨.atSend, ssm2.channelCapacity, false, false⟩ :=
        .producer (.readSuccess 0 ssm2.channelCapacity false)
      have h4 : ssm2.SessionStep
          ⟨.atSend, ssm2.channelCapacity, false, false⟩
          ⟨.atSend, ssm2.channelCapacity, true, false⟩ :=
        .cancel .atSend ssm2.channelCapacity false
      exact h1.trans (.head h2 (.head h3 (.head h4 .refl)))
    · intro t ht
      cases ht with
      | send b c h => exact absurd h (by decide)
  · refine ⟨⟨.atSend, 0, true, false⟩, ⟨.atSelect 0, 1, true, false⟩,
      ?_, rfl, rfl, .send 0 true (by decide), rfl⟩
    have h2 : ssm2.SessionStep ssm2.sessionInit
        ⟨.reading 0, 0, false, false⟩ :=
      .producer (.selectDefault 0 0)
    have h3 : ssm2.SessionStep
        ⟨.reading 0, 0, false, false⟩ ⟨.atSend, 0, false, false⟩ :=
      .producer (.readSuccess 0 0 false)
    have h4 : ssm2.SessionStep
        ⟨.atSend, 0, false, false⟩ ⟨.atSend, 0, true, false⟩ :=
      .cancel .atSend 0 false
    exact .head h2 (.head h3 (.head h4 .refl))
